import Mathlib

/-
  Verification development for the compton compositing manager
  (src/compton.h, src/config_libconfig.c).

  Modelling conventions:
  - C doubles are modelled as exact rationals (Rat).
  - C int is modelled as Int, unsigned/X11 handles as Nat.
  - libconfig lookups (config_lookup_int / _float / _bool / _string) write
    through their output pointer only on success; a configuration file is
    therefore modelled as a record of Option-valued entries, one per key
    that parse_config looks up, and a successful lookup of key k is
    (cfg.k = some v).
  - exit(1) is modelled by the Except error channel: Except.error 1.
  - External parsers whose bodies live outside src/ (parse_rule_opacity,
    parse_vsync, parse_backend, parse_conv_kern_lst, parse_glx_swap_method)
    are taken as parameters, bundled in ext_fns.
-/

namespace Compton

/-- X11 window / region / resource ids. -/
abbrev Window := Nat

/-- The fully opaque opacity value, compton.h line 45: 0xffffffff. -/
def OPAQUE : Nat := 0xffffffff

/-- Normalize a double value to 0.0 - 1.0 (compton.h, normalize_d). -/
def normalize_d (d : Rat) : Rat :=
  if d > 1 then 1
  else if d < 0 then 0
  else d

/-- Loop body of array_wid_exists (compton.h).  The C loop is
`while (count--) if (arr[count] == wid) return True;` so each iteration
tests index count-1.  An access outside the bounds of the array is
undefined behaviour in C and is modelled as `none`. -/
def array_wid_exists_go (arr : List Window) (wid : Window) : Nat → Option Bool
  | 0 => some false
  | Nat.succ c =>
    if h : c < arr.length then
      if arr.get ⟨c, h⟩ = wid then some true
      else array_wid_exists_go arr wid c
    else none

/-- Check if a window ID exists in an array of window IDs (compton.h,
array_wid_exists).  For a negative count the C loop condition
`count--` is still true (nonzero), so the first iteration reads
`arr[count-1]` at a negative index: undefined behaviour, modelled `none`. -/
def array_wid_exists (arr : List Window) (count : Int) (wid : Window) : Option Bool :=
  if count < 0 then none
  else array_wid_exists_go arr wid count.toNat

/-! ### Ignore list and server-side region book-keeping

The ignore list itself is the linked list of `struct _ignore` nodes holding
request sequence numbers (compton.h lines 77-80).  The display is modelled
with the X request counter (NextRequest), the ignore list, and a log of the
region-destroy requests issued, as pairs (sequence number, region id). -/

structure XDisplay where
  next_request : Nat
  ignores : List Nat
  destroyed_regions : List (Nat × Nat)
deriving DecidableEq

/-- Sequence number the next X request will get (Xlib NextRequest macro). -/
def NextRequest (dpy : XDisplay) : Nat := dpy.next_request

/-- Modelled from the spec: the body of `set_ignore` is in compton.c, which
is not under src/ (compton.h line 307 only declares it).  Per the spec, the
Ignore List is "an ordered set of outstanding request sequence numbers whose
resulting protocol errors must be suppressed"; set_ignore records the given
sequence number at the end of that list.  It issues no X request itself. -/
def set_ignore (dpy : XDisplay) (sequence : Nat) : XDisplay :=
  { dpy with ignores := dpy.ignores ++ [sequence] }

/-- The Xlib call XFixesDestroyRegion (external library): issues exactly one
X request, consuming one sequence number, asking the server to destroy the
region. -/
def XFixesDestroyRegion (dpy : XDisplay) (region : Nat) : XDisplay :=
  { dpy with
    next_request := dpy.next_request + 1
    destroyed_regions := dpy.destroyed_regions ++ [(dpy.next_request, region)] }

/-- The tracked window (struct _win, compton.h).  Only the fields the
claims under verification touch are modelled; `border_size = 0` models the
X constant None (no cached region). -/
structure win where
  id : Window
  border_size : Nat
deriving DecidableEq

/-- Destroy the cached border_size of a window (compton.h lines 479-485):
if a cached region exists, record NextRequest in the ignore list, issue the
region-destroy request, and reset the field to None. -/
def win_free_border_size (dpy : XDisplay) (w : win) : XDisplay × win :=
  if w.border_size ≠ 0 then
    let dpy := set_ignore dpy (NextRequest dpy)
    let dpy := XFixesDestroyRegion dpy w.border_size
    (dpy, { w with border_size := 0 })
  else (dpy, w)

/-! ### Fade engine

The fade record is struct _fade (compton.h lines 136-144); the callback
function pointer is modelled as a tagged variant as the spec suggests, and
the weak window pointer by the window id.  The display pointer field is
not modelled (the modelled operations never read it).  The bodies of
set_fade, run_fades, find_fade, enqueue_fade, dequeue_fade and
cleanup_fade are in compton.c, which is not under src/ (compton.h only
declares them, lines 252-277); they are modelled from the spec. -/

inductive callback_t where
  | finish_unmap
  | finish_destroy
  | finish_focus
  | no_callback
deriving DecidableEq

structure fade where
  wid : Window
  cur : Rat
  finish : Rat
  step : Rat
  callback : callback_t
deriving DecidableEq

/-- Modelled from the spec: find_fade (body in compton.c, not under src/)
returns the active fade of the given window, if any. -/
def find_fade (wid : Window) (fades : List fade) : Option fade :=
  fades.find? (fun f => f.wid = wid)

/-- Modelled from the spec: enqueue_fade (body in compton.c, not under
src/) links a fade into the process-wide active-fade set. -/
def enqueue_fade (f : fade) (fades : List fade) : List fade :=
  f :: fades

/-- Modelled from the spec: dequeue_fade (body in compton.c, not under
src/) removes the given fade from the active-fade set. -/
def dequeue_fade (fades : List fade) (f : fade) : List fade :=
  fades.filter (fun g => g.wid ≠ f.wid)

/-- Modelled from the spec: cleanup_fade (body in compton.c, not under
src/) removes any active fade of the given window. -/
def cleanup_fade (fades : List fade) (wid : Window) : List fade :=
  fades.filter (fun g => g.wid ≠ wid)

/-- Modelled from the spec: set_fade (body in compton.c, not under src/;
spec section 4.4): if override is false and a fade toward the same target
already exists it is left untouched; otherwise any existing fade on the
window is replaced.  If step is not positive or start equals finish, the
opacity is applied immediately and, if exec_callback is set, the callback
fires synchronously with no fade created.  Returns the new active-fade set
and the callbacks fired synchronously. -/
def set_fade (fades : List fade) (wid : Window) (start finish step : Rat)
    (callback : callback_t) (exec_callback override : Bool) :
    List fade × List callback_t :=
  match find_fade wid fades with
  | some f =>
    if !override && (f.finish == finish) then (fades, [])
    else if step ≤ 0 ∨ start = finish then
      (cleanup_fade fades wid, if exec_callback then [callback] else [])
    else
      (enqueue_fade ⟨wid, start, finish, step, callback⟩ (cleanup_fade fades wid), [])
  | none =>
    if step ≤ 0 ∨ start = finish then
      (fades, if exec_callback then [callback] else [])
    else
      (enqueue_fade ⟨wid, start, finish, step, callback⟩ fades, [])

/-- Modelled from the spec: one tick of a single fade (spec section 4.4):
move cur toward finish by step, clamped so it does not overshoot. -/
def fade_tick (f : fade) : fade :=
  if f.cur < f.finish then { f with cur := min (f.cur + f.step) f.finish }
  else if f.finish < f.cur then { f with cur := max (f.cur - f.step) f.finish }
  else f

/-- Modelled from the spec: run_fades (body in compton.c, not under src/;
spec section 4.4): every active fade advances one step toward its target;
a fade that has reached its target is removed from the active set and its
callback is invoked.  Returns the remaining fades and the callbacks of the
completed ones. -/
def run_fades (fades : List fade) : List fade × List callback_t :=
  let stepped := fades.map fade_tick
  (stepped.filter (fun f => f.cur ≠ f.finish),
   (stepped.filter (fun f => f.cur = f.finish)).map (fun f => f.callback))

/-- Iterate run_fades over a number of scheduler ticks. -/
def run_fades_iter : Nat → List fade → List fade
  | 0, fades => fades
  | n + 1, fades => (run_fades (run_fades_iter n fades)).1

/-- OPAQUE as the double value used for a fade target
(`finish = OPAQUE`). -/
def OPAQUE_d : Rat := (OPAQUE : Rat)

/-- The at-most-one-fade-per-window invariant of the active-fade set. -/
def wids_nodup (fades : List fade) : Prop :=
  (fades.map (fun f => f.wid)).Nodup

instance (fades : List fade) : Decidable (wids_nodup fades) := by
  unfold wids_nodup; infer_instance

/-! ### Configuration model (src/config_libconfig.c)

A libconfig configuration file is modelled as a record with one
Option-valued entry per key that parse_config looks up; `some v` means the
key is present with value v (config_lookup_* succeeds), `none` that the
lookup fails.  Settings that parse_cfg_condlst inspects structurally are
modelled by cond_setting. -/

/-- Number of window types (compton.h, NUM_WINTYPES). -/
def NUM_WINTYPES : Nat := 15

abbrev wintype := Fin NUM_WINTYPES

/-- A libconfig setting as inspected by parse_cfg_condlst /
parse_cfg_condlst_opct: an array (of strings, as used by the
configuration), a single string, or a setting of any other type. -/
inductive cond_setting where
  | arr : List String → cond_setting
  | str : String → cond_setting
  | other
deriving DecidableEq

/-- The per-wintype sub-setting (wintypes.NAME in the configuration). -/
structure wintype_setting where
  shadow : Option Bool
  fade : Option Bool
  focus : Option Bool
  opacity : Option Rat

structure config_t where
  fade_delta : Option Int
  fade_in_step : Option Rat
  fade_out_step : Option Rat
  shadow_radius : Option Int
  shadow_opacity : Option Rat
  shadow_offset_x : Option Int
  shadow_offset_y : Option Int
  inactive_opacity : Option Rat
  active_opacity : Option Rat
  frame_opacity : Option Rat
  shadow : Option Bool
  no_dock_shadow : Option Bool
  no_dnd_shadow : Option Bool
  menu_opacity : Option Rat
  fading : Option Bool
  no_fading_openclose : Option Bool
  no_fading_destroyed_argb : Option Bool
  shadow_red : Option Rat
  shadow_green : Option Rat
  shadow_blue : Option Rat
  shadow_exclude_reg : Option String
  inactive_opacity_override : Option Bool
  inactive_dim : Option Rat
  mark_wmwin_focused : Option Bool
  mark_ovredir_focused : Option Bool
  shadow_ignore_shaped : Option Bool
  detect_rounded_corners : Option Bool
  xinerama_shadow_crop : Option Bool
  detect_client_opacity : Option Bool
  refresh_rate : Option Int
  vsync : Option String
  backend : Option String
  alpha_step : Option Rat
  sw_opti : Option Bool
  use_ewmh_active_win : Option Bool
  unredir_if_possible : Option Bool
  unredir_if_possible_delay : Option Int
  inactive_dim_fixed : Option Bool
  detect_transient : Option Bool
  detect_client_leader : Option Bool
  shadow_exclude : Option cond_setting
  fade_exclude : Option cond_setting
  focus_exclude : Option cond_setting
  invert_color_include : Option cond_setting
  blur_background_exclude : Option cond_setting
  opacity_rule : Option cond_setting
  unredir_if_possible_exclude : Option cond_setting
  blur_background : Option Bool
  blur_background_frame : Option Bool
  blur_background_fixed : Option Bool
  blur_kern : Option String
  resize_damage : Option Int
  glx_no_stencil : Option Bool
  glx_no_rebind_pixmap : Option Bool
  glx_swap_method : Option String
  glx_use_gpushader4 : Option Bool
  clear_shadow : Option Bool
  paint_on_overlay : Option Bool
  glx_use_copysubbuffermesa : Option Bool
  glx_copy_from_front : Option Bool
  xrender_sync : Option Bool
  xrender_sync_fence : Option Bool
  wintypes : wintype → Option wintype_setting

/-- The subset of options_t (common.h) that parse_config reads or writes.
Fields declared opacity_t in common.h (fade_in_step, fade_out_step,
inactive_opacity, active_opacity) are Nat; double fields are Rat. -/
structure options_t where
  fade_delta : Int
  fade_in_step : Nat
  fade_out_step : Nat
  shadow_radius : Int
  shadow_opacity : Rat
  shadow_offset_x : Int
  shadow_offset_y : Int
  inactive_opacity : Nat
  active_opacity : Nat
  frame_opacity : Rat
  wintype_shadow : wintype → Bool
  wintype_fade : wintype → Bool
  wintype_focus : wintype → Bool
  wintype_opacity : wintype → Rat
  no_fading_openclose : Bool
  no_fading_destroyed_argb : Bool
  shadow_red : Rat
  shadow_green : Rat
  shadow_blue : Rat
  shadow_exclude_reg_str : Option String
  inactive_opacity_override : Bool
  inactive_dim : Rat
  mark_wmwin_focused : Bool
  mark_ovredir_focused : Bool
  shadow_ignore_shaped : Bool
  detect_rounded_corners : Bool
  xinerama_shadow_crop : Bool
  detect_client_opacity : Bool
  refresh_rate : Int
  vsync : Int
  backend : Int
  alpha_step : Rat
  sw_opti : Bool
  use_ewmh_active_win : Bool
  unredir_if_possible : Bool
  unredir_if_possible_delay : Int
  inactive_dim_fixed : Bool
  detect_transient : Bool
  detect_client_leader : Bool
  shadow_blacklist : List String
  fade_blacklist : List String
  focus_blacklist : List String
  invert_color_list : List String
  blur_background_blacklist : List String
  unredir_if_possible_blacklist : List String
  blur_background : Bool
  blur_background_frame : Bool
  blur_background_fixed : Bool
  blur_kerns : List (List Rat)
  resize_damage : Int
  glx_no_stencil : Bool
  glx_no_rebind_pixmap : Bool
  glx_swap_method : Int
  glx_use_gpushader4 : Bool

/-- struct options_tmp (the temporary legacy options parse_config fills). -/
structure options_tmp where
  no_dock_shadow : Bool
  no_dnd_shadow : Bool
  menu_opacity : Rat
deriving DecidableEq

/-- The piece of the session state parse_config touches besides options_t:
the opacity rules that parse_rule_opacity accumulates. -/
structure session_t where
  opacity_rules : List String
deriving DecidableEq

/-- External parsers called by parse_config whose bodies are outside
src/config_libconfig.c; they are parameters of the model.
parse_rule_opacity returns whether the pattern parsed; parse_conv_kern_lst
returns the parsed kernels or none on failure; parse_glx_swap_method
returns the parsed method or none on failure. -/
structure ext_fns where
  parse_rule_opacity : String → Bool
  parse_vsync : String → Int
  parse_backend : String → Int
  parse_conv_kern_lst : String → Option (List (List Rat))
  parse_glx_swap_method : String → Option Int

/-- Wrapper of libconfig config_lookup_bool taking a pointer to bool
(config_libconfig.c, lcfg_lookup_bool): returns the lookup result and the
(possibly updated) pointee; the pointee is written only when the lookup
succeeds. -/
def lcfg_lookup_bool (entry : Option Bool) (value : Bool) : Bool × Bool :=
  match entry with
  | some b => (true, b)
  | none => (false, value)

/-- Modelled from the spec: condlst_add (the external rule-list parser,
section 2 treats rule-list parsing as a collaborator) parses one pattern
and links it into the given condition list; modelled as prepending the
pattern string. -/
def condlst_add (lst : List String) (pattern : String) : List String :=
  pattern :: lst

/-- Parse a condition list in the configuration file
(config_libconfig.c, parse_cfg_condlst).  The C loop
`int i = config_setting_length(setting); while (i--) condlst_add(...)`
processes array elements from the last index down to 0. -/
def parse_cfg_condlst (setting : Option cond_setting) (lst : List String) :
    List String :=
  match setting with
  | none => lst
  | some (.arr xs) => xs.reverse.foldl condlst_add lst
  | some (.str s) => condlst_add lst s
  | some .other => lst

/-- Loop of parse_cfg_condlst_opct over the array elements (already
reversed to match the downward C loop): on the first pattern that fails to
parse, the process exits with status 1. -/
def opct_loop (pro : String → Bool) : List String → List String → Except Nat (List String)
  | rules, [] => Except.ok rules
  | rules, s :: rest =>
    if pro s then opct_loop pro (condlst_add rules s) rest
    else Except.error 1

/-- Parse an opacity rule list in the configuration file
(config_libconfig.c, parse_cfg_condlst_opct).  In the array branch a
pattern that fails to parse causes exit(1); in the single-string branch
the return value of parse_rule_opacity is ignored. -/
def parse_cfg_condlst_opct (pro : String → Bool) (rules : List String)
    (setting : Option cond_setting) : Except Nat (List String) :=
  match setting with
  | none => Except.ok rules
  | some (.arr xs) => opct_loop pro rules xs.reverse
  | some (.str s) => Except.ok (if pro s then condlst_add rules s else rules)
  | some .other => Except.ok rules

/-- Modelled from the spec: wintype_arr_enable (common.h, not under src/)
enables the given per-wintype flag for every window type. -/
def wintype_arr_enable (_arr : wintype → Bool) : wintype → Bool :=
  fun _ => true

/-- Conversion of a clamped opacity fraction to an opacity_t value as in
`o->fade_in_step = normalize_d(dval) * OPAQUE;`: the double product is
truncated by the store into the unsigned integer field. -/
def opacity_store (d : Rat) : Nat :=
  (⌊normalize_d d * ((OPAQUE : Nat) : Rat)⌋).toNat

/-- The scalar option lookups of parse_config, config_libconfig.c lines
217-317, in source order.  Every field is written only when the
corresponding lookup succeeds (libconfig semantics). -/
def scalar_opts (ep : ext_fns) (cfg : config_t) (o : options_t)
    (tmp : options_tmp) : options_t × options_tmp :=
  let o := { o with
    -- -D (fade_delta)
    fade_delta := match cfg.fade_delta with
      | some v => v | none => o.fade_delta
    -- -I (fade_in_step)
    fade_in_step := match cfg.fade_in_step with
      | some d => opacity_store d | none => o.fade_in_step
    -- -O (fade_out_step)
    fade_out_step := match cfg.fade_out_step with
      | some d => opacity_store d | none => o.fade_out_step
    -- -r (shadow_radius)
    shadow_radius := cfg.shadow_radius.getD o.shadow_radius
    -- -o (shadow_opacity)
    shadow_opacity := cfg.shadow_opacity.getD o.shadow_opacity
    -- -l (shadow_offset_x)
    shadow_offset_x := cfg.shadow_offset_x.getD o.shadow_offset_x
    -- -t (shadow_offset_y)
    shadow_offset_y := cfg.shadow_offset_y.getD o.shadow_offset_y
    -- -i (inactive_opacity)
    inactive_opacity := match cfg.inactive_opacity with
      | some d => opacity_store d | none => o.inactive_opacity
    -- --active_opacity
    active_opacity := match cfg.active_opacity with
      | some d => opacity_store d | none => o.active_opacity
    -- -e (frame_opacity)
    frame_opacity := cfg.frame_opacity.getD o.frame_opacity
    -- -c (shadow_enable)
    wintype_shadow := if cfg.shadow = some true
      then wintype_arr_enable o.wintype_shadow else o.wintype_shadow
    -- -f (fading_enable)
    wintype_fade := if cfg.fading = some true
      then wintype_arr_enable o.wintype_fade else o.wintype_fade
    -- --no-fading-open-close
    no_fading_openclose :=
      (lcfg_lookup_bool cfg.no_fading_openclose o.no_fading_openclose).2
    -- --no-fading-destroyed-argb
    no_fading_destroyed_argb :=
      (lcfg_lookup_bool cfg.no_fading_destroyed_argb o.no_fading_destroyed_argb).2
    -- --shadow-red / green / blue
    shadow_red := cfg.shadow_red.getD o.shadow_red
    shadow_green := cfg.shadow_green.getD o.shadow_green
    shadow_blue := cfg.shadow_blue.getD o.shadow_blue
    -- --shadow-exclude-reg
    shadow_exclude_reg_str := match cfg.shadow_exclude_reg with
      | some s => some s | none => o.shadow_exclude_reg_str
    -- --inactive-opacity-override
    inactive_opacity_override :=
      (lcfg_lookup_bool cfg.inactive_opacity_override o.inactive_opacity_override).2
    -- --inactive-dim
    inactive_dim := cfg.inactive_dim.getD o.inactive_dim
    -- --mark-wmwin-focused
    mark_wmwin_focused :=
      (lcfg_lookup_bool cfg.mark_wmwin_focused o.mark_wmwin_focused).2
    -- --mark-ovredir-focused
    mark_ovredir_focused :=
      (lcfg_lookup_bool cfg.mark_ovredir_focused o.mark_ovredir_focused).2
    -- --shadow-ignore-shaped
    shadow_ignore_shaped :=
      (lcfg_lookup_bool cfg.shadow_ignore_shaped o.shadow_ignore_shaped).2
    -- --detect-rounded-corners
    detect_rounded_corners :=
      (lcfg_lookup_bool cfg.detect_rounded_corners o.detect_rounded_corners).2
    -- --xinerama-shadow-crop
    xinerama_shadow_crop :=
      (lcfg_lookup_bool cfg.xinerama_shadow_crop o.xinerama_shadow_crop).2
    -- --detect-client-opacity
    detect_client_opacity :=
      (lcfg_lookup_bool cfg.detect_client_opacity o.detect_client_opacity).2
    -- --refresh-rate
    refresh_rate := cfg.refresh_rate.getD o.refresh_rate
    -- --vsync
    vsync := match cfg.vsync with
      | some s => ep.parse_vsync s | none => o.vsync
    -- --backend
    backend := match cfg.backend with
      | some s => ep.parse_backend s | none => o.backend
    -- --alpha-step
    alpha_step := cfg.alpha_step.getD o.alpha_step
    -- --sw-opti
    sw_opti := (lcfg_lookup_bool cfg.sw_opti o.sw_opti).2
    -- --use-ewmh-active-win
    use_ewmh_active_win :=
      (lcfg_lookup_bool cfg.use_ewmh_active_win o.use_ewmh_active_win).2
    -- --unredir-if-possible
    unredir_if_possible :=
      (lcfg_lookup_bool cfg.unredir_if_possible o.unredir_if_possible).2
    -- --unredir-if-possible-delay
    unredir_if_possible_delay := match cfg.unredir_if_possible_delay with
      | some v => v | none => o.unredir_if_possible_delay
    -- --inactive-dim-fixed
    inactive_dim_fixed :=
      (lcfg_lookup_bool cfg.inactive_dim_fixed o.inactive_dim_fixed).2
    -- --detect-transient
    detect_transient :=
      (lcfg_lookup_bool cfg.detect_transient o.detect_transient).2
    -- --detect-client-leader
    detect_client_leader :=
      (lcfg_lookup_bool cfg.detect_client_leader o.detect_client_leader).2 }
  let tmp := { tmp with
    -- -C (no_dock_shadow)
    no_dock_shadow := (lcfg_lookup_bool cfg.no_dock_shadow tmp.no_dock_shadow).2
    -- -G (no_dnd_shadow)
    no_dnd_shadow := (lcfg_lookup_bool cfg.no_dnd_shadow tmp.no_dnd_shadow).2
    -- -m (menu_opacity)
    menu_opacity := cfg.menu_opacity.getD tmp.menu_opacity }
  (o, tmp)

/-- The first five condition-list options of parse_config, in source
order (shadow-exclude, fade-exclude, focus-exclude, invert-color-include,
blur-background-exclude). -/
def condlsts_opts (cfg : config_t) (o : options_t) : options_t :=
  { o with
    shadow_blacklist := parse_cfg_condlst cfg.shadow_exclude o.shadow_blacklist
    fade_blacklist := parse_cfg_condlst cfg.fade_exclude o.fade_blacklist
    focus_blacklist := parse_cfg_condlst cfg.focus_exclude o.focus_blacklist
    invert_color_list :=
      parse_cfg_condlst cfg.invert_color_include o.invert_color_list
    blur_background_blacklist :=
      parse_cfg_condlst cfg.blur_background_exclude o.blur_background_blacklist }

/-- The unredir-if-possible-exclude condition list (after opacity-rule in
source order). -/
def unredir_condlst_opt (cfg : config_t) (o : options_t) : options_t :=
  { o with
    unredir_if_possible_blacklist :=
      parse_cfg_condlst cfg.unredir_if_possible_exclude
        o.unredir_if_possible_blacklist }

/-- The three blur-background boolean options. -/
def blur_flag_opts (cfg : config_t) (o : options_t) : options_t :=
  { o with
    blur_background := (lcfg_lookup_bool cfg.blur_background o.blur_background).2
    blur_background_frame :=
      (lcfg_lookup_bool cfg.blur_background_frame o.blur_background_frame).2
    blur_background_fixed :=
      (lcfg_lookup_bool cfg.blur_background_fixed o.blur_background_fixed).2 }

/-- The blur-kern option: when present, a string that fails
parse_conv_kern_lst causes exit(1). -/
def blur_kern_step (ep : ext_fns) (cfg : config_t) (o : options_t) :
    Except Nat options_t :=
  match cfg.blur_kern with
  | some s =>
    match ep.parse_conv_kern_lst s with
    | some k => Except.ok { o with blur_kerns := k }
    | none => Except.error 1
  | none => Except.ok o

/-- resize-damage and the two glx boolean options between blur-kern and
glx-swap-method. -/
def glx_flag_opts (cfg : config_t) (o : options_t) : options_t :=
  { o with
    resize_damage := cfg.resize_damage.getD o.resize_damage
    glx_no_stencil := (lcfg_lookup_bool cfg.glx_no_stencil o.glx_no_stencil).2
    glx_no_rebind_pixmap :=
      (lcfg_lookup_bool cfg.glx_no_rebind_pixmap o.glx_no_rebind_pixmap).2 }

/-- The glx-swap-method option: when present, a string that fails
parse_glx_swap_method causes exit(1). -/
def glx_swap_step (ep : ext_fns) (cfg : config_t) (o : options_t) :
    Except Nat options_t :=
  match cfg.glx_swap_method with
  | some s =>
    match ep.parse_glx_swap_method s with
    | some v => Except.ok { o with glx_swap_method := v }
    | none => Except.error 1
  | none => Except.ok o

def msg_clear_shadow : String :=
  "clear-shadow is removed as an option, and is always enabled now. Consider removing it from your config file"

def msg_paint_on_overlay : String :=
  "paint-on-overlay has been removed as an option, and is enabled whenever possible"

/-- The next four messages are the removed-option name followed by the
shared deprecation_message text of the C code. -/
def msg_glx_use_copysubbuffermesa : String :=
  "glx-use-copysubbuffermesa has been removed. If you encounter problems without this feature, please feel free to open a bug report."

def msg_glx_copy_from_front : String :=
  "glx-copy-from-front has been removed. If you encounter problems without this feature, please feel free to open a bug report."

def msg_xrender_sync : String :=
  "xrender-sync has been removed. If you encounter problems without this feature, please feel free to open a bug report."

def msg_xrender_sync_fence : String :=
  "xrender-sync-fence has been removed. If you encounter problems without this feature, please feel free to open a bug report."

/-- The warnings parse_config prints for removed options
(config_libconfig.c lines 357-373): clear-shadow and paint-on-overlay warn
whenever the key is present (lcfg_lookup_bool succeeded); the other four
warn only when the key is present and set to true (`&& bval`). -/
def removed_opt_msgs (cfg : config_t) : List String :=
  (if cfg.clear_shadow.isSome then [msg_clear_shadow] else []) ++
  (if cfg.paint_on_overlay.isSome then [msg_paint_on_overlay] else []) ++
  (if cfg.glx_use_copysubbuffermesa = some true
    then [msg_glx_use_copysubbuffermesa] else []) ++
  (if cfg.glx_copy_from_front = some true then [msg_glx_copy_from_front] else []) ++
  (if cfg.xrender_sync = some true then [msg_xrender_sync] else []) ++
  (if cfg.xrender_sync_fence = some true then [msg_xrender_sync_fence] else [])

/-- The wintypes section (config_libconfig.c lines 377-393).  The C loop
over the window types updates, for each type i with a wintypes.NAME
setting, exactly the entries at index i of the four per-wintype arrays, so
it is written here pointwise. -/
def wintype_opts (cfg : config_t) (o : options_t) : options_t :=
  { o with
    wintype_shadow := fun i => match cfg.wintypes i with
      | some st => match st.shadow with
        | some b => b | none => o.wintype_shadow i
      | none => o.wintype_shadow i
    wintype_fade := fun i => match cfg.wintypes i with
      | some st => match st.fade with
        | some b => b | none => o.wintype_fade i
      | none => o.wintype_fade i
    wintype_focus := fun i => match cfg.wintypes i with
      | some st => match st.focus with
        | some b => b | none => o.wintype_focus i
      | none => o.wintype_focus i
    wintype_opacity := fun i => match cfg.wintypes i with
      | some st => match st.opacity with
        | some d => normalize_d d | none => o.wintype_opacity i
      | none => o.wintype_opacity i }

/-- The result of a parse_config run that returned normally: the updated
options, temporary options and session state, plus the warning messages
printed for removed options. -/
structure parse_result where
  o : options_t
  tmp : options_tmp
  ps : session_t
  msgs : List String

/-- Parse a configuration file (config_libconfig.c, parse_config),
starting from the option-extraction part after a successful config_read
(the file-discovery and read prefix, lines 161-212, is I/O and is modelled
separately by open_config_file; on a failed open or read parse_config
returns early without touching any option).  Follows source order; the
three places where the C code calls exit(1) are the error channel. -/
def parse_config (ep : ext_fns) (cfg : config_t) (o : options_t)
    (tmp : options_tmp) (ps : session_t) : Except Nat parse_result :=
  let otmp := scalar_opts ep cfg o tmp
  let o1 := condlsts_opts cfg otmp.1
  -- --opacity-rule
  match parse_cfg_condlst_opct ep.parse_rule_opacity ps.opacity_rules
      cfg.opacity_rule with
  | Except.error n => Except.error n
  | Except.ok rules =>
    let o2 := unredir_condlst_opt cfg o1
    let o3 := blur_flag_opts cfg o2
    -- --blur-kern
    match blur_kern_step ep cfg o3 with
    | Except.error n => Except.error n
    | Except.ok o4 =>
      let o5 := glx_flag_opts cfg o4
      -- --glx-swap-method
      match glx_swap_step ep cfg o5 with
      | Except.error n => Except.error n
      | Except.ok o6 =>
        let o7 := { o6 with glx_use_gpushader4 :=
          (lcfg_lookup_bool cfg.glx_use_gpushader4 o6.glx_use_gpushader4).2 }
        Except.ok ⟨wintype_opts cfg o7, otmp.2, ⟨rules⟩, removed_opt_msgs cfg⟩

/-- The given configuration with all six removed options deleted (used to
state that their presence affects nothing but the printed warnings). -/
def strip_removed (cfg : config_t) : config_t :=
  { cfg with
    clear_shadow := none
    paint_on_overlay := none
    glx_use_copysubbuffermesa := none
    glx_copy_from_front := none
    xrender_sync := none
    xrender_sync_fence := none }

/-! ### Configuration file discovery (open_config_file) -/

def config_filename : String := "/compton.conf"

def config_filename_legacy : String := "/.compton.conf"

def config_home_suffix : String := "/.config"

def config_system_dir : String := "/etc/xdg"

/-- mstrjoin (string_utils, not under src/): concatenation of two strings. -/
def mstrjoin (a b : String) : String := a ++ b

/-- mstrjoin3 (string_utils, not under src/): concatenation of three
strings. -/
def mstrjoin3 (a b c : String) : String := a ++ b ++ c

/-- An environment variable counts only when set to a non-empty string
(the C tests `getenv(name) && strlen(...)`). -/
def nonempty_env : Option String → Option String
  | some s => if s.length ≠ 0 then some s else none
  | none => none

/-- The process environment as read by open_config_file. -/
structure env_t where
  xdg_config_home : Option String
  home : Option String
  xdg_config_dirs : Option String

/-- strtok with delimiter ":" yields the non-empty colon-separated pieces. -/
def tokenize (s : String) : List String :=
  (s.splitOn ":").filter (fun t => t.length ≠ 0)

/-- The $XDG_CONFIG_DIRS part of open_config_file: try part/compton.conf
for each colon-separated part, in order.  Returns the opened path (if any)
and the list of paths passed to fopen. -/
def try_config_dirs (fexists : String → Bool) : List String → Option String × List String
  | [] => (none, [])
  | part :: rest =>
    let p := mstrjoin part config_filename
    if fexists p then (some p, [p])
    else
      let r := try_config_dirs fexists rest
      (r.1, p :: r.2)

/-- The tail of open_config_file once the first candidate path has been
computed: try it, then the legacy $HOME location, then the system
directories. -/
def open_config_file_from (fexists : String → Bool) (env : env_t)
    (path : String) : Option String × List String :=
  if fexists path then (some path, [path])
  else
    -- Then check user configuration file in $HOME
    let legacy : Option String × List String :=
      match nonempty_env env.home with
      | some home =>
        let p := mstrjoin home config_filename_legacy
        (if fexists p then some p else none, [p])
      | none => (none, [])
    match legacy.1 with
    | some p => (some p, path :: legacy.2)
    | none =>
      -- Check system configuration file in $XDG_CONFIG_DIRS at last
      let sys : Option String × List String :=
        match nonempty_env env.xdg_config_dirs with
        | some dirs => try_config_dirs fexists (tokenize dirs)
        | none =>
          let p := mstrjoin config_system_dir config_filename
          (if fexists p then some p else none, [p])
      (sys.1, path :: (legacy.2 ++ sys.2))

/-- Get the configuration file to read (config_libconfig.c,
open_config_file).  `fexists` models which paths fopen can open.  Returns
the path opened (none models a NULL FILE pointer) together with the list
of every path passed to fopen, in order. -/
def open_config_file (fexists : String → Bool) (env : env_t)
    (cpath : Option String) : Option String × List String :=
  match cpath with
  | some path => ((if fexists path then some path else none), [path])
  | none =>
    -- Check user configuration file in $XDG_CONFIG_HOME firstly
    match nonempty_env env.xdg_config_home with
    | none =>
      match nonempty_env env.home with
      | none => (none, [])
      | some home => open_config_file_from
          fexists env (mstrjoin3 home config_home_suffix config_filename)
    | some dir => open_config_file_from
        fexists env (mstrjoin dir config_filename)

/-! ### Concrete sample inputs (used by witnesses and counterexamples) -/

/-- A configuration file with every key absent. -/
def cfg_none : config_t :=
  ⟨none, none, none, none, none, none, none, none, none, none,
   none, none, none, none, none, none, none, none, none, none,
   none, none, none, none, none, none, none, none, none, none,
   none, none, none, none, none, none, none, none, none, none,
   none, none, none, none, none, none, none, none, none, none,
   none, none, none, none, none, none, none, none, none, none,
   none, none, fun _ => none⟩

/-- Sample option defaults (concrete values; the defaults themselves are
set up in compton.c, outside src/, and are irrelevant to the claims). -/
def o0 : options_t where
  fade_delta := 10
  fade_in_step := 1310
  fade_out_step := 1310
  shadow_radius := 12
  shadow_opacity := 1
  shadow_offset_x := -15
  shadow_offset_y := -15
  inactive_opacity := 0
  active_opacity := 0
  frame_opacity := 0
  wintype_shadow := fun _ => false
  wintype_fade := fun _ => false
  wintype_focus := fun _ => false
  wintype_opacity := fun _ => 1
  no_fading_openclose := false
  no_fading_destroyed_argb := false
  shadow_red := 0
  shadow_green := 0
  shadow_blue := 0
  shadow_exclude_reg_str := none
  inactive_opacity_override := false
  inactive_dim := 0
  mark_wmwin_focused := false
  mark_ovredir_focused := false
  shadow_ignore_shaped := false
  detect_rounded_corners := false
  xinerama_shadow_crop := false
  detect_client_opacity := false
  refresh_rate := 0
  vsync := 0
  backend := 0
  alpha_step := 1
  sw_opti := false
  use_ewmh_active_win := false
  unredir_if_possible := false
  unredir_if_possible_delay := 0
  inactive_dim_fixed := false
  detect_transient := false
  detect_client_leader := false
  shadow_blacklist := []
  fade_blacklist := []
  focus_blacklist := []
  invert_color_list := []
  blur_background_blacklist := []
  unredir_if_possible_blacklist := []
  blur_background := false
  blur_background_frame := false
  blur_background_fixed := false
  blur_kerns := []
  resize_damage := 0
  glx_no_stencil := false
  glx_no_rebind_pixmap := false
  glx_swap_method := 0
  glx_use_gpushader4 := false

def tmp0 : options_tmp := ⟨false, false, 1⟩

def ps0 : session_t := ⟨[]⟩

/-- External parsers that always succeed. -/
def ep0 : ext_fns :=
  ⟨fun _ => true, fun _ => 0, fun _ => 0, fun _ => some [], fun _ => some 0⟩

/-- A configuration setting shadow-opacity to 2.0 (outside [0,1]). -/
def cfg_shadow_op : config_t := { cfg_none with shadow_opacity := some 2 }

/-- A configuration with every opacity-valued key set to 2.0. -/
def cfg_opacities : config_t :=
  { cfg_none with
    fade_in_step := some 2, fade_out_step := some 2,
    inactive_opacity := some 2, active_opacity := some 2,
    shadow_opacity := some 2, frame_opacity := some 2 }

/-- A configuration containing the removed option xrender-sync set to
false. -/
def cfg_xr : config_t := { cfg_none with xrender_sync := some false }

/-- The parse_result of running parse_config on cfg_opacities. -/
def res_opacities : parse_result :=
  (parse_config ep0 cfg_opacities o0 tmp0 ps0).toOption.getD ⟨o0, tmp0, ps0, []⟩

/-- The parse_result of running parse_config on the empty configuration. -/
def res_none : parse_result :=
  (parse_config ep0 cfg_none o0 tmp0 ps0).toOption.getD ⟨o0, tmp0, ps0, []⟩

/-! ### C4, C5: win_free_border_size -/

/-- C4: win_free_border_size frees the cached border_size region exactly
once: after any call the border_size field is None (0); a second call on
the same window is a no-op (equal state, in particular it issues no
further region-destroy request), so calling it twice is equivalent to
calling it once. -/
theorem win_free_border_size_free_once (dpy : XDisplay) (w : win) :
    (win_free_border_size dpy w).2.border_size = 0 ∧
    win_free_border_size (win_free_border_size dpy w).1 (win_free_border_size dpy w).2
      = win_free_border_size dpy w ∧
    (win_free_border_size (win_free_border_size dpy w).1
        (win_free_border_size dpy w).2).1.destroyed_regions
      = (win_free_border_size dpy w).1.destroyed_regions := by
  unfold win_free_border_size set_ignore XFixesDestroyRegion NextRequest
  by_cases h : w.border_size = 0 <;> simp [h]

/-- C5: whenever win_free_border_size issues a region-destroy request, it
first records that request sequence number (NextRequest) in the ignore
list via set_ignore: the destroy request is issued with exactly the
sequence number just recorded, and every region-destroy request the call
adds has its sequence number in the resulting ignore list. -/
theorem win_free_border_size_sets_ignore (dpy : XDisplay) (w : win)
    (h : w.border_size ≠ 0) :
    (win_free_border_size dpy w).1.ignores = dpy.ignores ++ [NextRequest dpy] ∧
    (win_free_border_size dpy w).1.destroyed_regions
      = dpy.destroyed_regions ++ [(NextRequest dpy, w.border_size)] ∧
    ∀ p ∈ (win_free_border_size dpy w).1.destroyed_regions,
      p ∉ dpy.destroyed_regions → p.1 ∈ (win_free_border_size dpy w).1.ignores := by
  unfold win_free_border_size set_ignore XFixesDestroyRegion NextRequest
  refine ⟨by simp [h], by simp [h], ?_⟩
  intro p hp hnp
  simp only [if_pos h] at hp ⊢
  simp only [List.mem_append, List.mem_singleton] at hp
  rcases hp with hp | hp
  · exact absurd hp hnp
  · subst hp; simp

/-- Witness for C5 at a concrete display and window. -/
theorem win_free_border_size_sets_ignore_witness :
    ((⟨1, 5⟩ : win).border_size ≠ 0) ∧
    (win_free_border_size ⟨7, [], []⟩ ⟨1, 5⟩).1.ignores = [7] ∧
    (win_free_border_size ⟨7, [], []⟩ ⟨1, 5⟩).1.destroyed_regions = [(7, 5)] := by
  have h := win_free_border_size_sets_ignore ⟨7, [], []⟩ ⟨1, 5⟩ (by decide)
  exact ⟨by decide, by simpa using h.1, by simpa using h.2.1⟩

/-! ### C9: open_config_file search policy -/

/-- C9: with no explicit path and neither XDG_CONFIG_HOME nor HOME set to
a non-empty string, open_config_file returns NULL immediately, passing no
path at all to fopen (in particular it consults neither the legacy home
location nor the system directories); with an explicit path, only that
path is tried, with no fallback search on failure. -/
theorem open_config_file_search_policy :
    (∀ (fexists : String → Bool) (env : env_t),
      nonempty_env env.xdg_config_home = none → nonempty_env env.home = none →
      open_config_file fexists env none = (none, [])) ∧
    (∀ (fexists : String → Bool) (env : env_t) (path : String),
      open_config_file fexists env (some path)
        = ((if fexists path then some path else none), [path])) := by
  constructor
  · intro fexists env h1 h2
    unfold open_config_file
    rw [h1, h2]
  · intro fexists env path
    rfl

/-- Witness for C9 at a concrete empty environment. -/
theorem open_config_file_search_policy_witness :
    nonempty_env (⟨none, none, none⟩ : env_t).xdg_config_home = none ∧
    nonempty_env (⟨none, none, none⟩ : env_t).home = none ∧
    open_config_file (fun _ => false) ⟨none, none, none⟩ none = (none, []) :=
  ⟨rfl, rfl, open_config_file_search_policy.1 (fun _ => false) ⟨none, none, none⟩ rfl rfl⟩

/-! ### C10: array_wid_exists -/

/-- Helper for the array_wid_exists characterization: the loop starting at
a count n that is valid for the array always returns an answer, and that
answer is true exactly when some index below n holds the window id. -/
theorem array_wid_exists_go_char (arr : List Window) (wid : Window) :
    ∀ n, n ≤ arr.length →
      (array_wid_exists_go arr wid n = some true ∨
        array_wid_exists_go arr wid n = some false) ∧
      (array_wid_exists_go arr wid n = some true ↔
        ∃ k, k < n ∧ arr.get? k = some wid) := by
  intro n
  induction n with
  | zero =>
    intro _
    refine ⟨Or.inr rfl, ?_⟩
    simp [array_wid_exists_go]
  | succ m ih =>
    intro hn
    have hm : m < arr.length := Nat.lt_of_lt_of_le (Nat.lt_succ_self m) hn
    obtain ⟨ihtot, ihiff⟩ := ih (Nat.le_of_lt hm)
    unfold array_wid_exists_go
    rw [dif_pos hm]
    by_cases hw : arr.get ⟨m, hm⟩ = wid
    · rw [if_pos hw]
      refine ⟨Or.inl rfl, ?_⟩
      constructor
      · intro _
        exact ⟨m, Nat.lt_succ_self m, by rw [List.get?_eq_get hm, hw]⟩
      · intro _
        rfl
    · rw [if_neg hw]
      refine ⟨ihtot, ihiff.trans ?_⟩
      constructor
      · rintro ⟨k, hk, hkw⟩
        exact ⟨k, Nat.lt_succ_of_lt hk, hkw⟩
      · rintro ⟨k, hk, hkw⟩
        rcases Nat.lt_succ_iff_lt_or_eq.mp hk with hk | rfl
        · exact ⟨k, hk, hkw⟩
        · rw [List.get?_eq_get hm] at hkw
          exact absurd (Option.some.inj hkw) hw

/-- C10 (amended): for a count that is a valid element count of the array
(0 ≤ count ≤ length), array_wid_exists returns True iff some index k with
0 ≤ k < count holds wid, and otherwise returns False; in particular it
returns False when count = 0.  For count < 0 the C loop is entered (the
postdecrement condition is nonzero) and immediately reads the array at a
negative index, which is undefined behaviour, so the function does not
return False there (see the counterexample). -/
theorem array_wid_exists_characterization (arr : List Window) (count : Int)
    (wid : Window) (h0 : 0 ≤ count) (h1 : count.toNat ≤ arr.length) :
    (array_wid_exists arr count wid = some true ↔
      ∃ k, k < count.toNat ∧ arr.get? k = some wid) ∧
    (array_wid_exists arr count wid = some false ↔
      ¬ ∃ k, k < count.toNat ∧ arr.get? k = some wid) := by
  unfold array_wid_exists
  rw [if_neg (not_lt.mpr h0)]
  obtain ⟨htot, hiff⟩ := array_wid_exists_go_char arr wid count.toNat h1
  refine ⟨hiff, ?_, ?_⟩
  · intro hf hex
    rw [hiff.mpr hex] at hf
    simp at hf
  · intro hnex
    rcases htot with ht | ht
    · exact absurd (hiff.mp ht) hnex
    · exact ht

/-- Witness for C10 at a concrete array: [3, 4] with count 2 contains 4. -/
theorem array_wid_exists_characterization_witness :
    (0 : Int) ≤ 2 ∧ (2 : Int).toNat ≤ ([3, 4] : List Window).length ∧
    array_wid_exists [3, 4] 2 4 = some true :=
  ⟨by decide, by decide,
    (array_wid_exists_characterization [3, 4] 2 4 (by decide) (by decide)).1.mpr
      ⟨1, by decide, by decide⟩⟩

/-- Counterexample for C10 as stated: at count = -1 the function does not
return False (the loop underflows and performs an out-of-bounds read,
modelled as none). -/
theorem array_wid_exists_neg_count :
    array_wid_exists [] (-1) 0 = none ∧
    array_wid_exists [] (-1) 0 ≠ some false := by
  constructor
  · rfl
  · intro h
    simp [array_wid_exists] at h

/-! ### C7: at most one fade per window -/

/-- Filtering the active-fade set preserves the one-fade-per-window
invariant. -/
theorem fades_filter_nodup (fs : List fade) (p : fade → Bool)
    (h : wids_nodup fs) : wids_nodup (fs.filter p) := by
  unfold wids_nodup at h ⊢
  exact List.Nodup.sublist (List.Sublist.map _ (List.filter_sublist fs)) h

/-- A fade tick never changes the owning window of a fade. -/
theorem fade_tick_wid (f : fade) : (fade_tick f).wid = f.wid := by
  unfold fade_tick
  split
  · rfl
  · split
    · rfl
    · rfl

/-- run_fades preserves the one-fade-per-window invariant. -/
theorem run_fades_nodup (fs : List fade) (h : wids_nodup fs) :
    wids_nodup (run_fades fs).1 := by
  simp only [run_fades]
  apply fades_filter_nodup
  unfold wids_nodup at h ⊢
  rw [List.map_map]
  have he : ((fun f : fade => f.wid) ∘ fade_tick) = fun f : fade => f.wid :=
    funext fun f => fade_tick_wid f
  rw [he]
  exact h

/-- cleanup_fade preserves the one-fade-per-window invariant. -/
theorem cleanup_fade_nodup (fs : List fade) (w : Window) (h : wids_nodup fs) :
    wids_nodup (cleanup_fade fs w) :=
  fades_filter_nodup fs _ h

/-- dequeue_fade preserves the one-fade-per-window invariant. -/
theorem dequeue_fade_nodup (fs : List fade) (f : fade) (h : wids_nodup fs) :
    wids_nodup (dequeue_fade fs f) :=
  fades_filter_nodup fs _ h

/-- No fade left by cleanup_fade owns the cleaned-up window. -/
theorem cleanup_fade_not_mem (fs : List fade) (w : Window) :
    ∀ g ∈ cleanup_fade fs w, g.wid ≠ w := by
  intro g hg
  unfold cleanup_fade at hg
  rw [List.mem_filter] at hg
  simpa using hg.2

/-- set_fade preserves the one-fade-per-window invariant. -/
theorem set_fade_nodup (fs : List fade) (wid : Window)
    (start finish step : Rat) (cb : callback_t) (ex ov : Bool)
    (h : wids_nodup fs) :
    wids_nodup (set_fade fs wid start finish step cb ex ov).1 := by
  unfold set_fade
  cases hf : find_fade wid fs with
  | some f =>
    dsimp only
    split
    · exact h
    · split
      · exact cleanup_fade_nodup fs wid h
      · unfold enqueue_fade wids_nodup
        rw [List.map_cons, List.nodup_cons]
        refine ⟨?_, cleanup_fade_nodup fs wid h⟩
        intro hmem
        rw [List.mem_map] at hmem
        obtain ⟨g, hg, hw⟩ := hmem
        exact cleanup_fade_not_mem fs wid g hg hw
  | none =>
    dsimp only
    split
    · exact h
    · unfold enqueue_fade wids_nodup
      rw [List.map_cons, List.nodup_cons]
      refine ⟨?_, h⟩
      intro hmem
      rw [List.mem_map] at hmem
      obtain ⟨g, hg, hw⟩ := hmem
      have hnone := List.find?_eq_none.mp hf g hg
      simp at hnone
      exact hnone hw

/-- C7: the active-fade set contains at most one fade per window, and
this invariant is preserved by every operation on the set (set_fade,
run_fades, cleanup_fade, dequeue_fade); moreover set_fade on a window
that already has an active fade (override set, a real fade requested)
atomically removes the existing fade and replaces it with exactly the
requested one: the resulting set is the new fade consed onto the set
purged of that window, so the old target is abandoned, not blended. -/
theorem fade_set_one_per_window :
    (∀ fs wid start finish step cb ex ov, wids_nodup fs →
      wids_nodup (set_fade fs wid start finish step cb ex ov).1) ∧
    (∀ fs, wids_nodup fs → wids_nodup (run_fades fs).1) ∧
    (∀ fs w, wids_nodup fs → wids_nodup (cleanup_fade fs w)) ∧
    (∀ fs f, wids_nodup fs → wids_nodup (dequeue_fade fs f)) ∧
    (∀ fs wid start finish step cb ex, 0 < step → start ≠ finish →
      (set_fade fs wid start finish step cb ex true).1
        = ⟨wid, start, finish, step, cb⟩ :: cleanup_fade fs wid ∧
      find_fade wid (set_fade fs wid start finish step cb ex true).1
        = some ⟨wid, start, finish, step, cb⟩) := by
  refine ⟨set_fade_nodup, run_fades_nodup, cleanup_fade_nodup,
    dequeue_fade_nodup, ?_⟩
  intro fs wid start finish step cb ex hstep hne
  have hcond : ¬(step ≤ 0 ∨ start = finish) := by
    rintro (hc | hc)
    · exact absurd hstep (not_lt.mpr hc)
    · exact hne hc
  have hmain : (set_fade fs wid start finish step cb ex true).1
      = ⟨wid, start, finish, step, cb⟩ :: cleanup_fade fs wid := by
    unfold set_fade
    cases hf : find_fade wid fs with
    | some f =>
      dsimp only
      rw [if_neg (by simp), if_neg hcond]
      rfl
    | none =>
      dsimp only
      rw [if_neg hcond]
      unfold enqueue_fade
      have hcl : cleanup_fade fs wid = fs := by
        unfold cleanup_fade
        apply List.filter_eq_self.mpr
        intro g hg
        have hnone := List.find?_eq_none.mp hf g hg
        simpa using fun he => by simp [he] at hnone
      rw [hcl]
  refine ⟨hmain, ?_⟩
  rw [hmain]
  unfold find_fade
  rw [List.find?_cons_of_pos _ (by simp)]

/-- Witness for C7 at a concrete fade set. -/
theorem fade_set_one_per_window_witness :
    wids_nodup [(⟨1, 0, 1, 1, callback_t.no_callback⟩ : fade)] ∧
    (0 : Rat) < 1 ∧ (0 : Rat) ≠ 2 ∧
    wids_nodup (set_fade [(⟨1, 0, 1, 1, callback_t.no_callback⟩ : fade)]
      1 0 2 1 callback_t.no_callback false true).1 ∧
    find_fade 1 (set_fade [(⟨1, 0, 1, 1, callback_t.no_callback⟩ : fade)]
        1 0 2 1 callback_t.no_callback false true).1
      = some ⟨1, 0, 2, 1, callback_t.no_callback⟩ := by
  refine ⟨by decide, by decide, by decide, ?_, ?_⟩
  · exact fade_set_one_per_window.1 _ 1 0 2 1 callback_t.no_callback false true
      (by decide)
  · exact (fade_set_one_per_window.2.2.2.2 _ 1 0 2 1 callback_t.no_callback false
      (by decide) (by decide)).2

/-! ### C6: fade convergence -/

theorem OPAQUE_d_pos : 0 < OPAQUE_d := by
  unfold OPAQUE_d OPAQUE
  norm_num

/-- The number of ticks a positive-step fade to OPAQUE needs is positive. -/
theorem fade_ceil_pos (s : Rat) (hs : 0 < s) : 0 < ⌈OPAQUE_d / s⌉ :=
  Int.ceil_pos.mpr (div_pos OPAQUE_d_pos hs)

/-- Before the final tick the accumulated opacity is still short of
OPAQUE. -/
theorem fade_lt_of_lt_ceil (s : Rat) (hs : 0 < s) (m : Nat)
    (hm : m < (⌈OPAQUE_d / s⌉).toNat) : (m : Rat) * s < OPAQUE_d := by
  have h1 : (m : Int) < ⌈OPAQUE_d / s⌉ := Int.lt_toNat.mp hm
  have h2 : (m : Rat) < OPAQUE_d / s := by exact_mod_cast Int.lt_ceil.mp h1
  calc (m : Rat) * s < (OPAQUE_d / s) * s := mul_lt_mul_of_pos_right h2 hs
    _ = OPAQUE_d := div_mul_cancel₀ _ (ne_of_gt hs)

/-- At tick ceil(OPAQUE / s) the accumulated opacity reaches OPAQUE. -/
theorem fade_ge_at_ceil (s : Rat) (hs : 0 < s) :
    OPAQUE_d ≤ ((⌈OPAQUE_d / s⌉).toNat : Rat) * s := by
  have h1 : OPAQUE_d / s ≤ ((⌈OPAQUE_d / s⌉).toNat : Rat) := by
    have hle := Int.le_ceil (OPAQUE_d / s)
    have h2 : ((⌈OPAQUE_d / s⌉).toNat : Rat) = ((⌈OPAQUE_d / s⌉ : Int) : Rat) := by
      norm_cast
      exact Int.toNat_of_nonneg (le_of_lt (fade_ceil_pos s hs))
    rw [h2]
    exact hle
  calc OPAQUE_d = (OPAQUE_d / s) * s := (div_mul_cancel₀ _ (ne_of_gt hs)).symm
    _ ≤ ((⌈OPAQUE_d / s⌉).toNat : Rat) * s :=
      mul_le_mul_of_nonneg_right h1 (le_of_lt hs)

/-- One run_fades tick on a single fade that stays strictly below its
target: the fade advances by step and stays active. -/
theorem run_fades_single_active (f : fade) (h1 : f.cur < f.finish)
    (h2 : f.cur + f.step < f.finish) :
    run_fades [f] = ([{ f with cur := f.cur + f.step }], []) := by
  have ht : fade_tick f = { f with cur := f.cur + f.step } := by
    unfold fade_tick
    rw [if_pos h1, min_eq_left (le_of_lt h2)]
  simp only [run_fades, List.map_cons, List.map_nil, ht]
  simp [List.filter_cons, ne_of_lt h2]

/-- One run_fades tick on a single fade whose next step reaches or passes
the target: the value clamps to finish, the fade is removed and its
callback fires. -/
theorem run_fades_single_done (f : fade) (h1 : f.cur < f.finish)
    (h2 : f.finish ≤ f.cur + f.step) :
    run_fades [f] = ([], [f.callback]) := by
  have ht : fade_tick f = { f with cur := f.finish } := by
    unfold fade_tick
    rw [if_pos h1, min_eq_right h2]
  simp only [run_fades, List.map_cons, List.map_nil, ht]
  simp [List.filter_cons]

/-- Full characterization of iterating run_fades on a single fade from 0
to OPAQUE with positive step s: after m ticks the fade is active with
value m * s when m < ceil(OPAQUE / s), and gone otherwise. -/
theorem run_fades_iter_char (wid : Window) (cb : callback_t) (s : Rat)
    (hs : 0 < s) (m : Nat) :
    run_fades_iter m [⟨wid, 0, OPAQUE_d, s, cb⟩]
      = if m < (⌈OPAQUE_d / s⌉).toNat
        then [⟨wid, (m : Rat) * s, OPAQUE_d, s, cb⟩] else [] := by
  induction m with
  | zero =>
    have h0 : 0 < (⌈OPAQUE_d / s⌉).toNat := by
      have := fade_ceil_pos s hs
      omega
    rw [if_pos h0]
    show [(⟨wid, 0, OPAQUE_d, s, cb⟩ : fade)] = _
    norm_num
  | succ m ih =>
    have hstep : run_fades_iter (m + 1) [⟨wid, 0, OPAQUE_d, s, cb⟩]
        = (run_fades (run_fades_iter m [⟨wid, 0, OPAQUE_d, s, cb⟩])).1 := rfl
    rw [hstep, ih]
    by_cases hm : m < (⌈OPAQUE_d / s⌉).toNat
    · rw [if_pos hm]
      by_cases hm1 : m + 1 < (⌈OPAQUE_d / s⌉).toNat
      · rw [if_pos hm1]
        have hc : (m : Rat) * s < OPAQUE_d := fade_lt_of_lt_ceil s hs m hm
        have hc1 : (m : Rat) * s + s < OPAQUE_d := by
          have := fade_lt_of_lt_ceil s hs (m + 1) hm1
          push_cast at this
          linarith
        rw [run_fades_single_active ⟨wid, (m : Rat) * s, OPAQUE_d, s, cb⟩ hc hc1]
        have hcur : (m : Rat) * s + s = ((m + 1 : Nat) : Rat) * s := by
          push_cast
          ring
        rw [← hcur]
      · rw [if_neg hm1]
        have hNeq : (⌈OPAQUE_d / s⌉).toNat = m + 1 := by omega
        have hc : (m : Rat) * s < OPAQUE_d := fade_lt_of_lt_ceil s hs m hm
        have hge : OPAQUE_d ≤ (m : Rat) * s + s := by
          have := fade_ge_at_ceil s hs
          rw [hNeq] at this
          push_cast at this
          linarith
        rw [run_fades_single_done ⟨wid, (m : Rat) * s, OPAQUE_d, s, cb⟩ hc hge]
    · rw [if_neg hm, if_neg (by omega)]
      simp [run_fades]

/-- C6: for a fade started with start 0, finish OPAQUE and a step s > 0,
run_fades completes the fade in exactly ceil(OPAQUE / s) ticks: after any
m < ceil(OPAQUE / s) ticks the fade is still active with current value
m * s, at tick ceil(OPAQUE / s) it has reached the target and left the
active set, and across ticks the current value never exceeds finish and
is monotonically non-decreasing. -/
theorem fade_convergence (wid : Window) (cb : callback_t) (s : Rat)
    (hs : 0 < s) :
    (∀ m, m < (⌈OPAQUE_d / s⌉).toNat →
      run_fades_iter m [⟨wid, 0, OPAQUE_d, s, cb⟩]
        = [⟨wid, (m : Rat) * s, OPAQUE_d, s, cb⟩]) ∧
    run_fades_iter (⌈OPAQUE_d / s⌉).toNat [⟨wid, 0, OPAQUE_d, s, cb⟩] = [] ∧
    (∀ m, ∀ f ∈ run_fades_iter m [⟨wid, 0, OPAQUE_d, s, cb⟩],
      f.cur ≤ OPAQUE_d) ∧
    (∀ m, ∀ f ∈ run_fades_iter m [⟨wid, 0, OPAQUE_d, s, cb⟩],
      ∀ g ∈ run_fades_iter (m + 1) [⟨wid, 0, OPAQUE_d, s, cb⟩],
        f.cur ≤ g.cur) := by
  refine ⟨?_, ?_, ?_, ?_⟩
  · intro m hm
    rw [run_fades_iter_char wid cb s hs m, if_pos hm]
  · rw [run_fades_iter_char wid cb s hs _, if_neg (lt_irrefl _)]
  · intro m f hf
    rw [run_fades_iter_char wid cb s hs m] at hf
    split at hf
    · rw [List.mem_singleton] at hf
      subst hf
      exact le_of_lt (fade_lt_of_lt_ceil s hs m (by assumption))
    · exact absurd hf (List.not_mem_nil f)
  · intro m f hf g hg
    rw [run_fades_iter_char wid cb s hs m] at hf
    rw [run_fades_iter_char wid cb s hs (m + 1)] at hg
    split at hg
    · rw [List.mem_singleton] at hg
      subst hg
      have hm : m < (⌈OPAQUE_d / s⌉).toNat := by
        have : m + 1 < (⌈OPAQUE_d / s⌉).toNat := by assumption
        omega
      rw [if_pos hm, List.mem_singleton] at hf
      subst hf
      show (m : Rat) * s ≤ ((m + 1 : Nat) : Rat) * s
      push_cast
      nlinarith
    · exact absurd hg (List.not_mem_nil g)

/-- Witness for C6 with the concrete step s = OPAQUE (a one-tick fade). -/
theorem fade_convergence_witness :
    (0 : Rat) < OPAQUE_d ∧
    run_fades_iter (⌈OPAQUE_d / OPAQUE_d⌉).toNat
      [⟨0, 0, OPAQUE_d, OPAQUE_d, callback_t.no_callback⟩] = [] :=
  ⟨by norm_num [OPAQUE_d, OPAQUE],
    (fade_convergence 0 callback_t.no_callback OPAQUE_d
      (by norm_num [OPAQUE_d, OPAQUE])).2.1⟩

/-! ### Configuration parsing: helper lemmas -/

/-- A successful blur_kern_step changes nothing but the blur_kerns field. -/
theorem blur_kern_step_frame {ep : ext_fns} {cfg : config_t}
    {o o2 : options_t} (h : blur_kern_step ep cfg o = Except.ok o2) :
    o2 = { o with blur_kerns := o2.blur_kerns } := by
  cases hbk : cfg.blur_kern with
  | none =>
    simp only [blur_kern_step, hbk] at h
    injection h with h2
    subst h2
    rfl
  | some s =>
    simp only [blur_kern_step, hbk] at h
    cases hkk : ep.parse_conv_kern_lst s with
    | none =>
      simp only [hkk] at h
      exact Except.noConfusion h
    | some k =>
      simp only [hkk] at h
      injection h with h2
      subst h2
      rfl

/-- A successful glx_swap_step changes nothing but the glx_swap_method
field. -/
theorem glx_swap_step_frame {ep : ext_fns} {cfg : config_t}
    {o o2 : options_t} (h : glx_swap_step ep cfg o = Except.ok o2) :
    o2 = { o with glx_swap_method := o2.glx_swap_method } := by
  cases hgs : cfg.glx_swap_method with
  | none =>
    simp only [glx_swap_step, hgs] at h
    injection h with h2
    subst h2
    rfl
  | some s =>
    simp only [glx_swap_step, hgs] at h
    cases hkk : ep.parse_glx_swap_method s with
    | none =>
      simp only [hkk] at h
      exact Except.noConfusion h
    | some v =>
      simp only [hkk] at h
      injection h with h2
      subst h2
      rfl

/-- Shape of a successful parse_config run: the three fallible steps
succeeded, and the result is the final stage composition. -/
theorem parse_config_ok_shape {ep : ext_fns} {cfg : config_t}
    {o : options_t} {tmp : options_tmp} {ps : session_t} {r : parse_result}
    (h : parse_config ep cfg o tmp ps = Except.ok r) :
    ∃ rules o4 o6,
      parse_cfg_condlst_opct ep.parse_rule_opacity ps.opacity_rules
          cfg.opacity_rule = Except.ok rules ∧
      blur_kern_step ep cfg (blur_flag_opts cfg (unredir_condlst_opt cfg
        (condlsts_opts cfg (scalar_opts ep cfg o tmp).1))) = Except.ok o4 ∧
      glx_swap_step ep cfg (glx_flag_opts cfg o4) = Except.ok o6 ∧
      r = ⟨wintype_opts cfg { o6 with glx_use_gpushader4 :=
            (lcfg_lookup_bool cfg.glx_use_gpushader4 o6.glx_use_gpushader4).2 },
          (scalar_opts ep cfg o tmp).2, ⟨rules⟩, removed_opt_msgs cfg⟩ := by
  unfold parse_config at h
  cases h1 : parse_cfg_condlst_opct ep.parse_rule_opacity ps.opacity_rules
      cfg.opacity_rule with
  | error n =>
    simp only [h1] at h
    exact Except.noConfusion h
  | ok rules =>
    simp only [h1] at h
    cases h2 : blur_kern_step ep cfg (blur_flag_opts cfg (unredir_condlst_opt cfg
        (condlsts_opts cfg (scalar_opts ep cfg o tmp).1))) with
    | error n =>
      simp only [h2] at h
      exact Except.noConfusion h
    | ok o4 =>
      simp only [h2] at h
      cases h3 : glx_swap_step ep cfg (glx_flag_opts cfg o4) with
      | error n =>
        simp only [h3] at h
        exact Except.noConfusion h
      | ok o6 =>
        simp only [h3] at h
        injection h with h4
        exact ⟨rules, o4, o6, rfl, rfl, h3, h4.symm⟩

/-! ### C1: error handling of pattern options -/

/-- normalize_d clamps its argument into [0, 1]. -/
theorem normalize_d_bounds (d : Rat) : 0 ≤ normalize_d d ∧ normalize_d d ≤ 1 := by
  unfold normalize_d
  by_cases h1 : d > 1
  · rw [if_pos h1]
    exact ⟨zero_le_one, le_refl 1⟩
  · rw [if_neg h1]
    by_cases h2 : d < 0
    · rw [if_pos h2]
      exact ⟨le_refl 0, zero_le_one⟩
    · rw [if_neg h2]
      exact ⟨not_lt.mp h2, not_lt.mp h1⟩

/-- The stored opacity_t value never exceeds OPAQUE. -/
theorem opacity_store_le (d : Rat) : opacity_store d ≤ OPAQUE := by
  unfold opacity_store
  have hb := normalize_d_bounds d
  have hq : (0 : Rat) ≤ ((OPAQUE : Nat) : Rat) := by positivity
  have hle : normalize_d d * ((OPAQUE : Nat) : Rat) ≤ ((OPAQUE : Nat) : Rat) := by
    calc normalize_d d * ((OPAQUE : Nat) : Rat)
        ≤ 1 * ((OPAQUE : Nat) : Rat) := mul_le_mul_of_nonneg_right hb.2 hq
      _ = ((OPAQUE : Nat) : Rat) := one_mul _
  have hfloor : ⌊normalize_d d * ((OPAQUE : Nat) : Rat)⌋ ≤ ((OPAQUE : Nat) : Int) := by
    calc ⌊normalize_d d * ((OPAQUE : Nat) : Rat)⌋
        ≤ ⌊((OPAQUE : Nat) : Rat)⌋ := Int.floor_le_floor hle
      _ = ((OPAQUE : Nat) : Int) := Int.floor_natCast _
  exact Int.toNat_le.mpr hfloor

/-- C2 (amended): for a returning parse_config run, fade-in-step,
fade-out-step, inactive-opacity and active-opacity store the input
clamped to [0,1] by normalize_d and scaled by OPAQUE (opacity_store, at
most OPAQUE), and a per-wintype opacity stores the input clamped by
normalize_d (within [0,1]); but shadow-opacity and frame-opacity are
stored exactly as given, unclamped (the code defers their range checking
to later processing outside parse_config). -/
theorem parse_config_opacity_clamping (ep : ext_fns) (cfg : config_t)
    (o : options_t) (tmp : options_tmp) (ps : session_t) (r : parse_result)
    (h : parse_config ep cfg o tmp ps = Except.ok r) :
    (∀ d, cfg.fade_in_step = some d → r.o.fade_in_step = opacity_store d) ∧
    (∀ d, cfg.fade_out_step = some d → r.o.fade_out_step = opacity_store d) ∧
    (∀ d, cfg.inactive_opacity = some d → r.o.inactive_opacity = opacity_store d) ∧
    (∀ d, cfg.active_opacity = some d → r.o.active_opacity = opacity_store d) ∧
    (∀ i st d, cfg.wintypes i = some st → st.opacity = some d →
      r.o.wintype_opacity i = normalize_d d) ∧
    (∀ d, opacity_store d ≤ OPAQUE) ∧
    (∀ d, 0 ≤ normalize_d d ∧ normalize_d d ≤ 1) ∧
    (∀ d, cfg.shadow_opacity = some d → r.o.shadow_opacity = d) ∧
    (∀ d, cfg.frame_opacity = some d → r.o.frame_opacity = d) := by
  obtain ⟨rules, o4, o6, h1, h2, h3, rfl⟩ := parse_config_ok_shape h
  have hbf := blur_kern_step_frame h2
  have hgf := glx_swap_step_frame h3
  refine ⟨?_, ?_, ?_, ?_, ?_, opacity_store_le, normalize_d_bounds, ?_, ?_⟩
  · intro d hd
    rw [hgf, hbf]
    simp [wintype_opts, glx_flag_opts, blur_flag_opts, unredir_condlst_opt,
      condlsts_opts, scalar_opts, hd]
  · intro d hd
    rw [hgf, hbf]
    simp [wintype_opts, glx_flag_opts, blur_flag_opts, unredir_condlst_opt,
      condlsts_opts, scalar_opts, hd]
  · intro d hd
    rw [hgf, hbf]
    simp [wintype_opts, glx_flag_opts, blur_flag_opts, unredir_condlst_opt,
      condlsts_opts, scalar_opts, hd]
  · intro d hd
    rw [hgf, hbf]
    simp [wintype_opts, glx_flag_opts, blur_flag_opts, unredir_condlst_opt,
      condlsts_opts, scalar_opts, hd]
  · intro i st d hi hop
    simp [wintype_opts, hi, hop]
  · intro d hd
    rw [hgf, hbf]
    simp [wintype_opts, glx_flag_opts, blur_flag_opts, unredir_condlst_opt,
      condlsts_opts, scalar_opts, hd]
  · intro d hd
    rw [hgf, hbf]
    simp [wintype_opts, glx_flag_opts, blur_flag_opts, unredir_condlst_opt,
      condlsts_opts, scalar_opts, hd]

/-- Counterexample for C2 as stated: shadow-opacity 2.0 is stored as 2.0,
not clamped to [0,1] (its clamped value would be normalize_d 2 = 1). -/
theorem parse_config_shadow_opacity_unclamped :
    (parse_config ep0 cfg_shadow_op o0 tmp0 ps0).map (fun r => r.o.shadow_opacity)
      = Except.ok 2 ∧
    normalize_d 2 = 1 ∧ (2 : Rat) ≠ 1 := by
  refine ⟨rfl, by decide, by decide⟩

/-- Witness for C2 (amended) at a concrete configuration. -/
theorem parse_config_opacity_clamping_witness :
    parse_config ep0 cfg_opacities o0 tmp0 ps0 = Except.ok res_opacities ∧
    cfg_opacities.fade_in_step = some 2 ∧
    res_opacities.o.fade_in_step = opacity_store 2 ∧
    cfg_opacities.shadow_opacity = some 2 ∧
    res_opacities.o.shadow_opacity = 2 := by
  have h : parse_config ep0 cfg_opacities o0 tmp0 ps0 = Except.ok res_opacities := rfl
  refine ⟨h, rfl, ?_, rfl, ?_⟩
  · exact (parse_config_opacity_clamping ep0 cfg_opacities o0 tmp0 ps0
      res_opacities h).1 2 rfl
  · exact (parse_config_opacity_clamping ep0 cfg_opacities o0 tmp0 ps0
      res_opacities h).2.2.2.2.2.2.2.1 2 rfl

/-! ### C3: removed options -/

/-- Membership in a conditional singleton list. -/
theorem mem_if_singleton (x y : String) (c : Prop) [Decidable c] :
    (x ∈ if c then [y] else []) ↔ c ∧ x = y := by
  split
  · simp [*]
  · simp [*]

/-- C3 (amended): the six removed options affect nothing but the warning
messages: parse_config on any configuration equals parse_config on the
same configuration with the six options deleted, with only the message
list replaced — so their presence never changes the resulting options,
options_tmp or session state and never causes a failure.  A warning is
printed for clear-shadow and paint-on-overlay whenever the key is
present, but for glx-use-copysubbuffermesa, glx-copy-from-front,
xrender-sync and xrender-sync-fence only when the key is present and set
to true. -/
theorem removed_options_warn_not_fail (ep : ext_fns) (cfg : config_t)
    (o : options_t) (tmp : options_tmp) (ps : session_t) :
    parse_config ep cfg o tmp ps
      = (parse_config ep (strip_removed cfg) o tmp ps).map
          (fun r => ⟨r.o, r.tmp, r.ps, removed_opt_msgs cfg⟩) ∧
    (msg_clear_shadow ∈ removed_opt_msgs cfg ↔ cfg.clear_shadow.isSome) ∧
    (msg_paint_on_overlay ∈ removed_opt_msgs cfg ↔ cfg.paint_on_overlay.isSome) ∧
    (msg_glx_use_copysubbuffermesa ∈ removed_opt_msgs cfg ↔
      cfg.glx_use_copysubbuffermesa = some true) ∧
    (msg_glx_copy_from_front ∈ removed_opt_msgs cfg ↔
      cfg.glx_copy_from_front = some true) ∧
    (msg_xrender_sync ∈ removed_opt_msgs cfg ↔ cfg.xrender_sync = some true) ∧
    (msg_xrender_sync_fence ∈ removed_opt_msgs cfg ↔
      cfg.xrender_sync_fence = some true) := by
  refine ⟨?_, ?_, ?_, ?_, ?_, ?_, ?_⟩
  · unfold parse_config
    cases h1 : parse_cfg_condlst_opct ep.parse_rule_opacity ps.opacity_rules
        cfg.opacity_rule with
    | error n =>
      have h1s : parse_cfg_condlst_opct ep.parse_rule_opacity ps.opacity_rules
          (strip_removed cfg).opacity_rule = Except.error n := h1
      simp only [h1, h1s, Except.map]
    | ok rules =>
      have h1s : parse_cfg_condlst_opct ep.parse_rule_opacity ps.opacity_rules
          (strip_removed cfg).opacity_rule = Except.ok rules := h1
      simp only [h1, h1s]
      cases h2 : blur_kern_step ep cfg (blur_flag_opts cfg (unredir_condlst_opt cfg
          (condlsts_opts cfg (scalar_opts ep cfg o tmp).1))) with
      | error n =>
        have h2s : blur_kern_step ep (strip_removed cfg)
            (blur_flag_opts (strip_removed cfg) (unredir_condlst_opt (strip_removed cfg)
              (condlsts_opts (strip_removed cfg)
                (scalar_opts ep (strip_removed cfg) o tmp).1))) = Except.error n := h2
        simp only [h2, h2s, Except.map]
      | ok o4 =>
        have h2s : blur_kern_step ep (strip_removed cfg)
            (blur_flag_opts (strip_removed cfg) (unredir_condlst_opt (strip_removed cfg)
              (condlsts_opts (strip_removed cfg)
                (scalar_opts ep (strip_removed cfg) o tmp).1))) = Except.ok o4 := h2
        simp only [h2, h2s]
        cases h3 : glx_swap_step ep cfg (glx_flag_opts cfg o4) with
        | error n =>
          have h3s : glx_swap_step ep (strip_removed cfg)
              (glx_flag_opts (strip_removed cfg) o4) = Except.error n := h3
          simp only [h3, h3s, Except.map]
        | ok o6 =>
          have h3s : glx_swap_step ep (strip_removed cfg)
              (glx_flag_opts (strip_removed cfg) o4) = Except.ok o6 := h3
          simp only [h3, h3s, Except.map]
          rfl
  · simp [removed_opt_msgs, mem_if_singleton, msg_clear_shadow,
      msg_paint_on_overlay, msg_glx_use_copysubbuffermesa,
      msg_glx_copy_from_front, msg_xrender_sync, msg_xrender_sync_fence]
  · simp [removed_opt_msgs, mem_if_singleton, msg_clear_shadow,
      msg_paint_on_overlay, msg_glx_use_copysubbuffermesa,
      msg_glx_copy_from_front, msg_xrender_sync, msg_xrender_sync_fence]
  · simp [removed_opt_msgs, mem_if_singleton, msg_clear_shadow,
      msg_paint_on_overlay, msg_glx_use_copysubbuffermesa,
      msg_glx_copy_from_front, msg_xrender_sync, msg_xrender_sync_fence]
  · simp [removed_opt_msgs, mem_if_singleton, msg_clear_shadow,
      msg_paint_on_overlay, msg_glx_use_copysubbuffermesa,
      msg_glx_copy_from_front, msg_xrender_sync, msg_xrender_sync_fence]
  · simp [removed_opt_msgs, mem_if_singleton, msg_clear_shadow,
      msg_paint_on_overlay, msg_glx_use_copysubbuffermesa,
      msg_glx_copy_from_front, msg_xrender_sync, msg_xrender_sync_fence]
  · simp [removed_opt_msgs, mem_if_singleton, msg_clear_shadow,
      msg_paint_on_overlay, msg_glx_use_copysubbuffermesa,
      msg_glx_copy_from_front, msg_xrender_sync, msg_xrender_sync_fence]

/-- Counterexample for C3 as stated: xrender-sync present but set to
false produces no warning at all. -/
theorem removed_option_no_warning :
    cfg_xr.xrender_sync.isSome = true ∧
    (parse_config ep0 cfg_xr o0 tmp0 ps0).map (fun r => r.msgs) = Except.ok [] :=
  ⟨rfl, rfl⟩

/-! ### C8: absent keys leave options unchanged -/

/-- C8: lcfg_lookup_bool writes through its pointer only when the lookup
succeeds, and every option field of the options structure (and of
options_tmp and the session opacity rules) is left unchanged by a
returning parse_config run whenever the corresponding configuration key
is absent — the pre-existing default survives. -/
theorem parse_config_frame (ep : ext_fns) (cfg : config_t) (o : options_t)
    (tmp : options_tmp) (ps : session_t) (r : parse_result)
    (h : parse_config ep cfg o tmp ps = Except.ok r) :
    (∀ v : Bool, lcfg_lookup_bool none v = (false, v)) ∧
    (cfg.fade_delta = none → r.o.fade_delta = o.fade_delta) ∧
    (cfg.fade_in_step = none → r.o.fade_in_step = o.fade_in_step) ∧
    (cfg.fade_out_step = none → r.o.fade_out_step = o.fade_out_step) ∧
    (cfg.shadow_radius = none → r.o.shadow_radius = o.shadow_radius) ∧
    (cfg.shadow_opacity = none → r.o.shadow_opacity = o.shadow_opacity) ∧
    (cfg.shadow_offset_x = none → r.o.shadow_offset_x = o.shadow_offset_x) ∧
    (cfg.shadow_offset_y = none → r.o.shadow_offset_y = o.shadow_offset_y) ∧
    (cfg.inactive_opacity = none → r.o.inactive_opacity = o.inactive_opacity) ∧
    (cfg.active_opacity = none → r.o.active_opacity = o.active_opacity) ∧
    (cfg.frame_opacity = none → r.o.frame_opacity = o.frame_opacity) ∧
    (∀ i, cfg.shadow = none → cfg.wintypes i = none →
      r.o.wintype_shadow i = o.wintype_shadow i) ∧
    (∀ i, cfg.fading = none → cfg.wintypes i = none →
      r.o.wintype_fade i = o.wintype_fade i) ∧
    (∀ i, cfg.wintypes i = none → r.o.wintype_focus i = o.wintype_focus i) ∧
    (∀ i, cfg.wintypes i = none → r.o.wintype_opacity i = o.wintype_opacity i) ∧
    (cfg.no_fading_openclose = none →
      r.o.no_fading_openclose = o.no_fading_openclose) ∧
    (cfg.no_fading_destroyed_argb = none →
      r.o.no_fading_destroyed_argb = o.no_fading_destroyed_argb) ∧
    (cfg.shadow_red = none → r.o.shadow_red = o.shadow_red) ∧
    (cfg.shadow_green = none → r.o.shadow_green = o.shadow_green) ∧
    (cfg.shadow_blue = none → r.o.shadow_blue = o.shadow_blue) ∧
    (cfg.shadow_exclude_reg = none →
      r.o.shadow_exclude_reg_str = o.shadow_exclude_reg_str) ∧
    (cfg.inactive_opacity_override = none →
      r.o.inactive_opacity_override = o.inactive_opacity_override) ∧
    (cfg.inactive_dim = none → r.o.inactive_dim = o.inactive_dim) ∧
    (cfg.mark_wmwin_focused = none →
      r.o.mark_wmwin_focused = o.mark_wmwin_focused) ∧
    (cfg.mark_ovredir_focused = none →
      r.o.mark_ovredir_focused = o.mark_ovredir_focused) ∧
    (cfg.shadow_ignore_shaped = none →
      r.o.shadow_ignore_shaped = o.shadow_ignore_shaped) ∧
    (cfg.detect_rounded_corners = none →
      r.o.detect_rounded_corners = o.detect_rounded_corners) ∧
    (cfg.xinerama_shadow_crop = none →
      r.o.xinerama_shadow_crop = o.xinerama_shadow_crop) ∧
    (cfg.detect_client_opacity = none →
      r.o.detect_client_opacity = o.detect_client_opacity) ∧
    (cfg.refresh_rate = none → r.o.refresh_rate = o.refresh_rate) ∧
    (cfg.vsync = none → r.o.vsync = o.vsync) ∧
    (cfg.backend = none → r.o.backend = o.backend) ∧
    (cfg.alpha_step = none → r.o.alpha_step = o.alpha_step) ∧
    (cfg.sw_opti = none → r.o.sw_opti = o.sw_opti) ∧
    (cfg.use_ewmh_active_win = none →
      r.o.use_ewmh_active_win = o.use_ewmh_active_win) ∧
    (cfg.unredir_if_possible = none →
      r.o.unredir_if_possible = o.unredir_if_possible) ∧
    (cfg.unredir_if_possible_delay = none →
      r.o.unredir_if_possible_delay = o.unredir_if_possible_delay) ∧
    (cfg.inactive_dim_fixed = none →
      r.o.inactive_dim_fixed = o.inactive_dim_fixed) ∧
    (cfg.detect_transient = none → r.o.detect_transient = o.detect_transient) ∧
    (cfg.detect_client_leader = none →
      r.o.detect_client_leader = o.detect_client_leader) ∧
    (cfg.shadow_exclude = none → r.o.shadow_blacklist = o.shadow_blacklist) ∧
    (cfg.fade_exclude = none → r.o.fade_blacklist = o.fade_blacklist) ∧
    (cfg.focus_exclude = none → r.o.focus_blacklist = o.focus_blacklist) ∧
    (cfg.invert_color_include = none →
      r.o.invert_color_list = o.invert_color_list) ∧
    (cfg.blur_background_exclude = none →
      r.o.blur_background_blacklist = o.blur_background_blacklist) ∧
    (cfg.unredir_if_possible_exclude = none →
      r.o.unredir_if_possible_blacklist = o.unredir_if_possible_blacklist) ∧
    (cfg.blur_background = none → r.o.blur_background = o.blur_background) ∧
    (cfg.blur_background_frame = none →
      r.o.blur_background_frame = o.blur_background_frame) ∧
    (cfg.blur_background_fixed = none →
      r.o.blur_background_fixed = o.blur_background_fixed) ∧
    (cfg.blur_kern = none → r.o.blur_kerns = o.blur_kerns) ∧
    (cfg.resize_damage = none → r.o.resize_damage = o.resize_damage) ∧
    (cfg.glx_no_stencil = none → r.o.glx_no_stencil = o.glx_no_stencil) ∧
    (cfg.glx_no_rebind_pixmap = none →
      r.o.glx_no_rebind_pixmap = o.glx_no_rebind_pixmap) ∧
    (cfg.glx_swap_method = none → r.o.glx_swap_method = o.glx_swap_method) ∧
    (cfg.glx_use_gpushader4 = none →
      r.o.glx_use_gpushader4 = o.glx_use_gpushader4) ∧
    (cfg.opacity_rule = none → r.ps.opacity_rules = ps.opacity_rules) ∧
    (cfg.no_dock_shadow = none → r.tmp.no_dock_shadow = tmp.no_dock_shadow) ∧
    (cfg.no_dnd_shadow = none → r.tmp.no_dnd_shadow = tmp.no_dnd_shadow) ∧
    (cfg.menu_opacity = none → r.tmp.menu_opacity = tmp.menu_opacity) := by
  obtain ⟨rules, o4, o6, h1, h2, h3, hr⟩ := parse_config_ok_shape h
  have hbf := blur_kern_step_frame h2
  have hgf := glx_swap_step_frame h3
  refine ⟨fun v => rfl, ?_, ?_, ?_, ?_, ?_, ?_, ?_, ?_, ?_, ?_, ?_, ?_, ?_, ?_,
    ?_, ?_, ?_, ?_, ?_, ?_, ?_, ?_, ?_, ?_, ?_, ?_, ?_, ?_, ?_, ?_, ?_, ?_, ?_,
    ?_, ?_, ?_, ?_, ?_, ?_, ?_, ?_, ?_, ?_, ?_, ?_, ?_, ?_, ?_, ?_, ?_, ?_, ?_,
    ?_, ?_, ?_, ?_, ?_, ?_⟩
  · intro hk; rw [hr]; dsimp only [wintype_opts]; rw [hgf]; dsimp only [glx_flag_opts]; rw [hbf]; dsimp only [blur_flag_opts, unredir_condlst_opt, condlsts_opts, scalar_opts, lcfg_lookup_bool, parse_cfg_condlst]; rw [hk]; try rfl
  · intro hk; rw [hr]; dsimp only [wintype_opts]; rw [hgf]; dsimp only [glx_flag_opts]; rw [hbf]; dsimp only [blur_flag_opts, unredir_condlst_opt, condlsts_opts, scalar_opts, lcfg_lookup_bool, parse_cfg_condlst]; rw [hk]; try rfl
  · intro hk; rw [hr]; dsimp only [wintype_opts]; rw [hgf]; dsimp only [glx_flag_opts]; rw [hbf]; dsimp only [blur_flag_opts, unredir_condlst_opt, condlsts_opts, scalar_opts, lcfg_lookup_bool, parse_cfg_condlst]; rw [hk]; try rfl
  · intro hk; rw [hr]; dsimp only [wintype_opts]; rw [hgf]; dsimp only [glx_flag_opts]; rw [hbf]; dsimp only [blur_flag_opts, unredir_condlst_opt, condlsts_opts, scalar_opts, lcfg_lookup_bool, parse_cfg_condlst]; rw [hk]; try rfl
  · intro hk; rw [hr]; dsimp only [wintype_opts]; rw [hgf]; dsimp only [glx_flag_opts]; rw [hbf]; dsimp only [blur_flag_opts, unredir_condlst_opt, condlsts_opts, scalar_opts, lcfg_lookup_bool, parse_cfg_condlst]; rw [hk]; try rfl
  · intro hk; rw [hr]; dsimp only [wintype_opts]; rw [hgf]; dsimp only [glx_flag_opts]; rw [hbf]; dsimp only [blur_flag_opts, unredir_condlst_opt, condlsts_opts, scalar_opts, lcfg_lookup_bool, parse_cfg_condlst]; rw [hk]; try rfl
  · intro hk; rw [hr]; dsimp only [wintype_opts]; rw [hgf]; dsimp only [glx_flag_opts]; rw [hbf]; dsimp only [blur_flag_opts, unredir_condlst_opt, condlsts_opts, scalar_opts, lcfg_lookup_bool, parse_cfg_condlst]; rw [hk]; try rfl
  · intro hk; rw [hr]; dsimp only [wintype_opts]; rw [hgf]; dsimp only [glx_flag_opts]; rw [hbf]; dsimp only [blur_flag_opts, unredir_condlst_opt, condlsts_opts, scalar_opts, lcfg_lookup_bool, parse_cfg_condlst]; rw [hk]; try rfl
  · intro hk; rw [hr]; dsimp only [wintype_opts]; rw [hgf]; dsimp only [glx_flag_opts]; rw [hbf]; dsimp only [blur_flag_opts, unredir_condlst_opt, condlsts_opts, scalar_opts, lcfg_lookup_bool, parse_cfg_condlst]; rw [hk]; try rfl
  · intro hk; rw [hr]; dsimp only [wintype_opts]; rw [hgf]; dsimp only [glx_flag_opts]; rw [hbf]; dsimp only [blur_flag_opts, unredir_condlst_opt, condlsts_opts, scalar_opts, lcfg_lookup_bool, parse_cfg_condlst]; rw [hk]; try rfl
  · intro i hk1 hk2; rw [hr]; dsimp only [wintype_opts]; rw [hk2]; rw [hgf]; dsimp only [glx_flag_opts]; rw [hbf]; dsimp only [blur_flag_opts, unredir_condlst_opt, condlsts_opts, scalar_opts]; rw [hk1]; try rfl
  · intro i hk1 hk2; rw [hr]; dsimp only [wintype_opts]; rw [hk2]; rw [hgf]; dsimp only [glx_flag_opts]; rw [hbf]; dsimp only [blur_flag_opts, unredir_condlst_opt, condlsts_opts, scalar_opts]; rw [hk1]; try rfl
  · intro i hk; rw [hr]; dsimp only [wintype_opts]; rw [hk]; rw [hgf]; dsimp only [glx_flag_opts]; rw [hbf]; dsimp only [blur_flag_opts, unredir_condlst_opt, condlsts_opts, scalar_opts]; try rfl
  · intro i hk; rw [hr]; dsimp only [wintype_opts]; rw [hk]; rw [hgf]; dsimp only [glx_flag_opts]; rw [hbf]; dsimp only [blur_flag_opts, unredir_condlst_opt, condlsts_opts, scalar_opts]; try rfl
  · intro hk; rw [hr]; dsimp only [wintype_opts]; rw [hgf]; dsimp only [glx_flag_opts]; rw [hbf]; dsimp only [blur_flag_opts, unredir_condlst_opt, condlsts_opts, scalar_opts, lcfg_lookup_bool, parse_cfg_condlst]; rw [hk]; try rfl
  · intro hk; rw [hr]; dsimp only [wintype_opts]; rw [hgf]; dsimp only [glx_flag_opts]; rw [hbf]; dsimp only [blur_flag_opts, unredir_condlst_opt, condlsts_opts, scalar_opts, lcfg_lookup_bool, parse_cfg_condlst]; rw [hk]; try rfl
  · intro hk; rw [hr]; dsimp only [wintype_opts]; rw [hgf]; dsimp only [glx_flag_opts]; rw [hbf]; dsimp only [blur_flag_opts, unredir_condlst_opt, condlsts_opts, scalar_opts, lcfg_lookup_bool, parse_cfg_condlst]; rw [hk]; try rfl
  · intro hk; rw [hr]; dsimp only [wintype_opts]; rw [hgf]; dsimp only [glx_flag_opts]; rw [hbf]; dsimp only [blur_flag_opts, unredir_condlst_opt, condlsts_opts, scalar_opts, lcfg_lookup_bool, parse_cfg_condlst]; rw [hk]; try rfl
  · intro hk; rw [hr]; dsimp only [wintype_opts]; rw [hgf]; dsimp only [glx_flag_opts]; rw [hbf]; dsimp only [blur_flag_opts, unredir_condlst_opt, condlsts_opts, scalar_opts, lcfg_lookup_bool, parse_cfg_condlst]; rw [hk]; try rfl
  · intro hk; rw [hr]; dsimp only [wintype_opts]; rw [hgf]; dsimp only [glx_flag_opts]; rw [hbf]; dsimp only [blur_flag_opts, unredir_condlst_opt, condlsts_opts, scalar_opts, lcfg_lookup_bool, parse_cfg_condlst]; rw [hk]; try rfl
  · intro hk; rw [hr]; dsimp only [wintype_opts]; rw [hgf]; dsimp only [glx_flag_opts]; rw [hbf]; dsimp only [blur_flag_opts, unredir_condlst_opt, condlsts_opts, scalar_opts, lcfg_lookup_bool, parse_cfg_condlst]; rw [hk]; try rfl
  · intro hk; rw [hr]; dsimp only [wintype_opts]; rw [hgf]; dsimp only [glx_flag_opts]; rw [hbf]; dsimp only [blur_flag_opts, unredir_condlst_opt, condlsts_opts, scalar_opts, lcfg_lookup_bool, parse_cfg_condlst]; rw [hk]; try rfl
  · intro hk; rw [hr]; dsimp only [wintype_opts]; rw [hgf]; dsimp only [glx_flag_opts]; rw [hbf]; dsimp only [blur_flag_opts, unredir_condlst_opt, condlsts_opts, scalar_opts, lcfg_lookup_bool, parse_cfg_condlst]; rw [hk]; try rfl
  · intro hk; rw [hr]; dsimp only [wintype_opts]; rw [hgf]; dsimp only [glx_flag_opts]; rw [hbf]; dsimp only [blur_flag_opts, unredir_condlst_opt, condlsts_opts, scalar_opts, lcfg_lookup_bool, parse_cfg_condlst]; rw [hk]; try rfl
  · intro hk; rw [hr]; dsimp only [wintype_opts]; rw [hgf]; dsimp only [glx_flag_opts]; rw [hbf]; dsimp only [blur_flag_opts, unredir_condlst_opt, condlsts_opts, scalar_opts, lcfg_lookup_bool, parse_cfg_condlst]; rw [hk]; try rfl
  · intro hk; rw [hr]; dsimp only [wintype_opts]; rw [hgf]; dsimp only [glx_flag_opts]; rw [hbf]; dsimp only [blur_flag_opts, unredir_condlst_opt, condlsts_opts, scalar_opts, lcfg_lookup_bool, parse_cfg_condlst]; rw [hk]; try rfl
  · intro hk; rw [hr]; dsimp only [wintype_opts]; rw [hgf]; dsimp only [glx_flag_opts]; rw [hbf]; dsimp only [blur_flag_opts, unredir_condlst_opt, condlsts_opts, scalar_opts, lcfg_lookup_bool, parse_cfg_condlst]; rw [hk]; try rfl
  · intro hk; rw [hr]; dsimp only [wintype_opts]; rw [hgf]; dsimp only [glx_flag_opts]; rw [hbf]; dsimp only [blur_flag_opts, unredir_condlst_opt, condlsts_opts, scalar_opts, lcfg_lookup_bool, parse_cfg_condlst]; rw [hk]; try rfl
  · intro hk; rw [hr]; dsimp only [wintype_opts]; rw [hgf]; dsimp only [glx_flag_opts]; rw [hbf]; dsimp only [blur_flag_opts, unredir_condlst_opt, condlsts_opts, scalar_opts, lcfg_lookup_bool, parse_cfg_condlst]; rw [hk]; try rfl
  · intro hk; rw [hr]; dsimp only [wintype_opts]; rw [hgf]; dsimp only [glx_flag_opts]; rw [hbf]; dsimp only [blur_flag_opts, unredir_condlst_opt, condlsts_opts, scalar_opts, lcfg_lookup_bool, parse_cfg_condlst]; rw [hk]; try rfl
  · intro hk; rw [hr]; dsimp only [wintype_opts]; rw [hgf]; dsimp only [glx_flag_opts]; rw [hbf]; dsimp only [blur_flag_opts, unredir_condlst_opt, condlsts_opts, scalar_opts, lcfg_lookup_bool, parse_cfg_condlst]; rw [hk]; try rfl
  · intro hk; rw [hr]; dsimp only [wintype_opts]; rw [hgf]; dsimp only [glx_flag_opts]; rw [hbf]; dsimp only [blur_flag_opts, unredir_condlst_opt, condlsts_opts, scalar_opts, lcfg_lookup_bool, parse_cfg_condlst]; rw [hk]; try rfl
  · intro hk; rw [hr]; dsimp only [wintype_opts]; rw [hgf]; dsimp only [glx_flag_opts]; rw [hbf]; dsimp only [blur_flag_opts, unredir_condlst_opt, condlsts_opts, scalar_opts, lcfg_lookup_bool, parse_cfg_condlst]; rw [hk]; try rfl
  · intro hk; rw [hr]; dsimp only [wintype_opts]; rw [hgf]; dsimp only [glx_flag_opts]; rw [hbf]; dsimp only [blur_flag_opts, unredir_condlst_opt, condlsts_opts, scalar_opts, lcfg_lookup_bool, parse_cfg_condlst]; rw [hk]; try rfl
  · intro hk; rw [hr]; dsimp only [wintype_opts]; rw [hgf]; dsimp only [glx_flag_opts]; rw [hbf]; dsimp only [blur_flag_opts, unredir_condlst_opt, condlsts_opts, scalar_opts, lcfg_lookup_bool, parse_cfg_condlst]; rw [hk]; try rfl
  · intro hk; rw [hr]; dsimp only [wintype_opts]; rw [hgf]; dsimp only [glx_flag_opts]; rw [hbf]; dsimp only [blur_flag_opts, unredir_condlst_opt, condlsts_opts, scalar_opts, lcfg_lookup_bool, parse_cfg_condlst]; rw [hk]; try rfl
  · intro hk; rw [hr]; dsimp only [wintype_opts]; rw [hgf]; dsimp only [glx_flag_opts]; rw [hbf]; dsimp only [blur_flag_opts, unredir_condlst_opt, condlsts_opts, scalar_opts, lcfg_lookup_bool, parse_cfg_condlst]; rw [hk]; try rfl
  · intro hk; rw [hr]; dsimp only [wintype_opts]; rw [hgf]; dsimp only [glx_flag_opts]; rw [hbf]; dsimp only [blur_flag_opts, unredir_condlst_opt, condlsts_opts, scalar_opts, lcfg_lookup_bool, parse_cfg_condlst]; rw [hk]; try rfl
  · intro hk; rw [hr]; dsimp only [wintype_opts]; rw [hgf]; dsimp only [glx_flag_opts]; rw [hbf]; dsimp only [blur_flag_opts, unredir_condlst_opt, condlsts_opts, scalar_opts, lcfg_lookup_bool, parse_cfg_condlst]; rw [hk]; try rfl
  · intro hk; rw [hr]; dsimp only [wintype_opts]; rw [hgf]; dsimp only [glx_flag_opts]; rw [hbf]; dsimp only [blur_flag_opts, unredir_condlst_opt, condlsts_opts, scalar_opts, lcfg_lookup_bool, parse_cfg_condlst]; rw [hk]; try rfl
  · intro hk; rw [hr]; dsimp only [wintype_opts]; rw [hgf]; dsimp only [glx_flag_opts]; rw [hbf]; dsimp only [blur_flag_opts, unredir_condlst_opt, condlsts_opts, scalar_opts, lcfg_lookup_bool, parse_cfg_condlst]; rw [hk]; try rfl
  · intro hk; rw [hr]; dsimp only [wintype_opts]; rw [hgf]; dsimp only [glx_flag_opts]; rw [hbf]; dsimp only [blur_flag_opts, unredir_condlst_opt, condlsts_opts, scalar_opts, lcfg_lookup_bool, parse_cfg_condlst]; rw [hk]; try rfl
  · intro hk; rw [hr]; dsimp only [wintype_opts]; rw [hgf]; dsimp only [glx_flag_opts]; rw [hbf]; dsimp only [blur_flag_opts, unredir_condlst_opt, condlsts_opts, scalar_opts, lcfg_lookup_bool, parse_cfg_condlst]; rw [hk]; try rfl
  · intro hk; rw [hr]; dsimp only [wintype_opts]; rw [hgf]; dsimp only [glx_flag_opts]; rw [hbf]; dsimp only [blur_flag_opts, unredir_condlst_opt, condlsts_opts, scalar_opts, lcfg_lookup_bool, parse_cfg_condlst]; rw [hk]; try rfl
  · intro hk; rw [hr]; dsimp only [wintype_opts]; rw [hgf]; dsimp only [glx_flag_opts]; rw [hbf]; dsimp only [blur_flag_opts, unredir_condlst_opt, condlsts_opts, scalar_opts, lcfg_lookup_bool, parse_cfg_condlst]; rw [hk]; try rfl
  · intro hk; rw [hr]; dsimp only [wintype_opts]; rw [hgf]; dsimp only [glx_flag_opts]; rw [hbf]; dsimp only [blur_flag_opts, unredir_condlst_opt, condlsts_opts, scalar_opts, lcfg_lookup_bool, parse_cfg_condlst]; rw [hk]; try rfl
  · intro hk; rw [hr]; dsimp only [wintype_opts]; rw [hgf]; dsimp only [glx_flag_opts]; rw [hbf]; dsimp only [blur_flag_opts, unredir_condlst_opt, condlsts_opts, scalar_opts, lcfg_lookup_bool, parse_cfg_condlst]; rw [hk]; try rfl
  · intro hk; rw [hr]; dsimp only [wintype_opts]; rw [hgf]; dsimp only [glx_flag_opts]; rw [hbf]; dsimp only [blur_flag_opts, unredir_condlst_opt, condlsts_opts, scalar_opts, lcfg_lookup_bool, parse_cfg_condlst]; rw [hk]; try rfl
  · intro hk
    have h2k := h2
    simp only [blur_kern_step, hk] at h2k
    injection h2k with h2e
    rw [hr]
    dsimp only [wintype_opts]
    rw [hgf]
    dsimp only [glx_flag_opts]
    rw [← h2e]
    dsimp only [blur_flag_opts, unredir_condlst_opt, condlsts_opts, scalar_opts]
  · intro hk; rw [hr]; dsimp only [wintype_opts]; rw [hgf]; dsimp only [glx_flag_opts]; rw [hbf]; dsimp only [blur_flag_opts, unredir_condlst_opt, condlsts_opts, scalar_opts, lcfg_lookup_bool, parse_cfg_condlst]; rw [hk]; try rfl
  · intro hk; rw [hr]; dsimp only [wintype_opts]; rw [hgf]; dsimp only [glx_flag_opts]; rw [hbf]; dsimp only [blur_flag_opts, unredir_condlst_opt, condlsts_opts, scalar_opts, lcfg_lookup_bool, parse_cfg_condlst]; rw [hk]; try rfl
  · intro hk; rw [hr]; dsimp only [wintype_opts]; rw [hgf]; dsimp only [glx_flag_opts]; rw [hbf]; dsimp only [blur_flag_opts, unredir_condlst_opt, condlsts_opts, scalar_opts, lcfg_lookup_bool, parse_cfg_condlst]; rw [hk]; try rfl
  · intro hk
    have h3k := h3
    simp only [glx_swap_step, hk] at h3k
    injection h3k with h3e
    rw [hr]
    dsimp only [wintype_opts]
    rw [← h3e]
    dsimp only [glx_flag_opts]
    rw [hbf]
    dsimp only [blur_flag_opts, unredir_condlst_opt, condlsts_opts, scalar_opts]
  · intro hk; rw [hr]; dsimp only [wintype_opts]; rw [hk]; dsimp only [lcfg_lookup_bool]; rw [hgf]; dsimp only [glx_flag_opts]; rw [hbf]; dsimp only [blur_flag_opts, unredir_condlst_opt, condlsts_opts, scalar_opts]; try rfl
  · intro hk
    have h1k := h1
    simp only [parse_cfg_condlst_opct, hk] at h1k
    injection h1k with h1e
    rw [hr]
    exact h1e.symm
  · intro hk; rw [hr]; dsimp only [scalar_opts, lcfg_lookup_bool]; rw [hk]; try rfl
  · intro hk; rw [hr]; dsimp only [scalar_opts, lcfg_lookup_bool]; rw [hk]; try rfl
  · intro hk; rw [hr]; dsimp only [scalar_opts, lcfg_lookup_bool]; rw [hk]; try rfl

/-- Witness for C8 at the empty configuration. -/
theorem parse_config_frame_witness :
    parse_config ep0 cfg_none o0 tmp0 ps0 = Except.ok res_none ∧
    cfg_none.fade_delta = none ∧
    res_none.o.fade_delta = o0.fade_delta ∧
    cfg_none.fade_in_step = none ∧
    res_none.o.fade_in_step = o0.fade_in_step := by
  have h : parse_config ep0 cfg_none o0 tmp0 ps0 = Except.ok res_none := rfl
  refine ⟨h, rfl, ?_, rfl, ?_⟩
  · exact (parse_config_frame ep0 cfg_none o0 tmp0 ps0 res_none h).2.1 rfl
  · exact (parse_config_frame ep0 cfg_none o0 tmp0 ps0 res_none h).2.2.1 rfl

end Compton
